import Mathlib

/-!
panaraui: prop-to-style mappings.

A shallow embedding of `src/utils/StyleUtils.jsx` and of the components under
`src/components/`, followed by theorems about the style objects they build.

JavaScript values are embedded as the inductive type `JSValue`.  An object is the list of
its own enumerable string-keyed properties in enumeration order; a thrown `TypeError` is
the `Except.error` result.
-/

set_option autoImplicit false

namespace PanaraUI

/-! ## JavaScript values -/

/-- A JavaScript number as the components observe it: they test its type and truthiness and
interpolate it into template literals, and never do arithmetic.  `int` is an integral value
(both zeros are `int 0`, they print alike); `real` is any other finite number, carried as
the text `ToString` gives it (such as `1.5` or `1e+21`), and is never zero. -/
inductive JSNum where
  | int (i : Int)
  | real (text : String)
  | nan
  | posInf
  | negInf
deriving DecidableEq, Repr

/-- A JavaScript value: `undefined`, `null`, booleans, numbers, strings, arrays, and plain
data objects.  Functions, symbols and bigints are left out: no style prop takes one. -/
inductive JSValue where
  | undefined
  | null
  | bool (b : Bool)
  | num (n : JSNum)
  | str (s : String)
  | arr (items : List JSValue)
  | obj (props : List (String × JSValue))
deriving Repr

/-- A plain object: its properties in enumeration order.  Keys of a well-formed object are
pairwise distinct. -/
abbrev JSObject := List (String × JSValue)

/-- The errors the embedded code can throw. -/
inductive JSError where
  | typeError
deriving DecidableEq, Repr

/-- Number to string, as in a template literal. -/
def JSNum.toStr : JSNum → String
  | .int i => toString i
  | .real t => t
  | .nan => "NaN"
  | .posInf => "Infinity"
  | .negInf => "-Infinity"

/-- Truthiness of a number: false for zero and NaN. -/
def JSNum.truthy : JSNum → Bool
  | .int i => i != 0
  | .real _ => true
  | .nan => false
  | .posInf => true
  | .negInf => true

/-- The `typeof` operator. -/
def JSValue.typeof : JSValue → String
  | .undefined => "undefined"
  | .null => "object"
  | .bool _ => "boolean"
  | .num _ => "number"
  | .str _ => "string"
  | .arr _ => "object"
  | .obj _ => "object"

/-- The boolean a value converts to in a condition. -/
def JSValue.truthy : JSValue → Bool
  | .undefined => false
  | .null => false
  | .bool b => b
  | .num n => n.truthy
  | .str s => s != ""
  | .arr _ => true
  | .obj _ => true

/-- Test `v === undefined`. -/
def JSValue.isUndefined : JSValue → Bool
  | .undefined => true
  | _ => false

mutual
/-- The string a value converts to when interpolated into a template literal. -/
def JSValue.toStr : JSValue → String
  | .undefined => "undefined"
  | .null => "null"
  | .bool b => if b then "true" else "false"
  | .num n => n.toStr
  | .str s => s
  | .arr items => ",".intercalate (JSValue.joinItems items)
  | .obj _ => "[object Object]"
/-- The strings `Array.prototype.join` puts between separators: `undefined` and `null`
elements give the empty string. -/
def JSValue.joinItems : List JSValue → List String
  | [] => []
  | .undefined :: rest => "" :: JSValue.joinItems rest
  | .null :: rest => "" :: JSValue.joinItems rest
  | v :: rest => JSValue.toStr v :: JSValue.joinItems rest
end

/-- Read property `k` of an object; `undefined` when absent. -/
def objGet : JSObject → String → JSValue
  | [], _ => .undefined
  | (k0, v) :: rest, k => if k0 = k then v else objGet rest k

/-- Define property `k` of an object: an existing key keeps its place and takes the new
value, a new key goes last.  (Keys here are style property names, never array indices, so
enumeration order is creation order.) -/
def objSet : JSObject → String → JSValue → JSObject
  | [], k, v => [(k, v)]
  | (k0, v0) :: rest, k, v => if k0 = k then (k0, v) :: rest else (k0, v0) :: objSet rest k v

/-- An object literal, and `Object.fromEntries`: the entries are defined left to right on
an empty object, so a repeated key (as after a spread) keeps its first place and its last
value. -/
def objLiteral (entries : List (String × JSValue)) : JSObject :=
  entries.foldl (fun o kv => objSet o kv.1 kv.2) []

/-- The keys of an object, in order. -/
def objKeys (o : JSObject) : List String := o.map Prod.fst

/-- Property access `v.k` for the property names the components read (`t`, `width`,
`offset`, ...): a `TypeError` on `undefined` and `null`, the property of an object,
`undefined` on every other value (none of these names is an array index or a
prototype member). -/
def JSValue.getProp (v : JSValue) (k : String) : Except JSError JSValue :=
  match v with
  | .undefined => .error .typeError
  | .null => .error .typeError
  | .obj props => .ok (objGet props k)
  | _ => .ok .undefined

/-- A destructuring default `name = d`: it applies exactly when the value is `undefined`. -/
def JSValue.orDefault (v d : JSValue) : JSValue :=
  match v with
  | .undefined => d
  | _ => v

/-- The idiom `typeof v === "number" ? v + "px" : v` written with a template literal. -/
def pxIfNumber (v : JSValue) : JSValue :=
  if v.typeof = "number" then .str (v.toStr ++ "px") else v

/-! ## `src/utils/StyleUtils.jsx` -/

namespace StyleUtils

/-- `StyleUtils.handleSize(value)`. -/
def handleSize (value : JSValue) : JSValue :=
  if value.typeof = "number" then .str (value.toStr ++ "px") else value

/-- One side of the object branch of `handleSpacing`:
`side ? (typeof side === "string" ? side : side + "px") : undefined`. -/
def spacingSide (side : JSValue) : JSValue :=
  if side.truthy then
    (if side.typeof = "string" then side else .str (side.toStr ++ "px"))
  else .undefined

/-- `StyleUtils.handleSpacing(prefix, spacing)`. -/
def handleSpacing (pfx : String) (spacing : JSValue) : Except JSError JSObject :=
  if spacing.typeof = "number" ∨ spacing.typeof = "string" then
    .ok (objLiteral
      [(pfx, if spacing.typeof = "string" then spacing else .str (spacing.toStr ++ "px"))])
  else if spacing.typeof = "object" then do
    let t ← spacing.getProp "t"
    let b ← spacing.getProp "b"
    let l ← spacing.getProp "l"
    let r ← spacing.getProp "r"
    let x ← spacing.getProp "x"
    let y ← spacing.getProp "y"
    .ok (objLiteral
      [ (pfx ++ "Top", spacingSide t),
        (pfx ++ "Bottom", spacingSide b),
        (pfx ++ "Left", spacingSide l),
        (pfx ++ "Right", spacingSide r),
        (pfx ++ "Inline", spacingSide x),
        (pfx ++ "Block", spacingSide y) ])
  else .ok (objLiteral [])

/-- `StyleUtils.removeUndefinedStyles(obj)`:
`Object.fromEntries(Object.entries(obj).filter(([_, v]) => v !== undefined))`. -/
def removeUndefinedStyles (o : JSObject) : JSObject :=
  objLiteral (o.filter (fun kv => !kv.2.isUndefined))

end StyleUtils

open StyleUtils

/-! ## Rendered markup -/

/-- What a component hands to the renderer: an expression slot holding a prop value
(`{child}`, `{children}`), or an element with its tag, its attributes other than `style`,
its `style` object, and its children. -/
inductive Markup where
  | expr (v : JSValue)
  | element (tag : String) (attrs : JSObject) (style : JSObject) (children : List Markup)

/-- The `style` object of an element. -/
def Markup.styleOf : Markup → JSObject
  | .expr _ => []
  | .element _ _ style _ => style

/-- Strict equality with a string literal, `v === "s"`. -/
def JSValue.isStr (v : JSValue) (s : String) : Bool :=
  match v with
  | .str t => t == s
  | _ => false

/-- The method call `v.join(sep)`: defined on arrays, a `TypeError` on every other value. -/
def JSValue.join (v : JSValue) (sep : String) : Except JSError String :=
  match v with
  | .arr items => .ok (sep.intercalate (JSValue.joinItems items))
  | _ => .error .typeError

/-! ## `src/components/Align.jsx` -/

/-- Props of `Align`; an omitted prop is `undefined`. -/
structure AlignProps where
  alignment : JSValue := .undefined
  child : JSValue := .undefined

/-- The `switch (alignment)` of `Align`: the pair `(justifyContent, alignItems)`. -/
def Align.alignmentSwitch (alignment : JSValue) : String × String :=
  match alignment with
  | .str "topLeft" => ("flex-start", "flex-start")
  | .str "topCenter" => ("center", "flex-start")
  | .str "topRight" => ("flex-end", "flex-start")
  | .str "centerLeft" => ("flex-start", "center")
  | .str "center" => ("center", "center")
  | .str "centerRight" => ("flex-end", "center")
  | .str "bottomLeft" => ("flex-start", "flex-end")
  | .str "bottomCenter" => ("center", "flex-end")
  | .str "bottomRight" => ("flex-end", "flex-end")
  | _ => ("center", "center")

/-- The `Align` component. -/
def Align (props : AlignProps) : Markup :=
  let alignment := props.alignment.orDefault (.str "center")
  let (justifyContent, alignItems) := Align.alignmentSwitch alignment
  let style := objLiteral
    [ ("display", .str "flex"),
      ("justifyContent", .str justifyContent),
      ("alignItems", .str alignItems),
      ("width", .str "100%"),
      ("height", .str "100%") ]
  .element "div" [] (removeUndefinedStyles style) [.expr props.child]

/-! ## `src/components/Row.jsx` -/

/-- Props of `Row`; an omitted prop is `undefined`. -/
structure RowProps where
  padding : JSValue := .undefined
  margin : JSValue := .undefined
  mainAxisAlignment : JSValue := .undefined
  crossAxisAlignment : JSValue := .undefined
  mainAxisSize : JSValue := .undefined
  children : JSValue := .undefined

/-- The `switch (mainAxisAlignment)` of `Row`. -/
def Row.justifyContent (mainAxisAlignment : JSValue) : String :=
  match mainAxisAlignment with
  | .str "start" => "flex-start"
  | .str "center" => "center"
  | .str "end" => "flex-end"
  | .str "spaceBetween" => "space-between"
  | .str "spaceAround" => "space-around"
  | .str "spaceEvenly" => "space-evenly"
  | _ => "flex-start"

/-- The `switch (crossAxisAlignment)` of `Row`. -/
def Row.alignItems (crossAxisAlignment : JSValue) : String :=
  match crossAxisAlignment with
  | .str "start" => "flex-start"
  | .str "center" => "center"
  | .str "end" => "flex-end"
  | .str "stretch" => "stretch"
  | .str "baseline" => "baseline"
  | _ => "stretch"

/-- The `Row` component. -/
def Row (props : RowProps) : Except JSError Markup := do
  let padding := props.padding.orDefault (.num (.int 0))
  let margin := props.margin.orDefault (.num (.int 0))
  let mainAxisAlignment := props.mainAxisAlignment.orDefault (.str "start")
  let crossAxisAlignment := props.crossAxisAlignment.orDefault (.str "stretch")
  let mainAxisSize := props.mainAxisSize.orDefault (.str "max")
  let justifyContent := Row.justifyContent mainAxisAlignment
  let alignItems := Row.alignItems crossAxisAlignment
  let paddingStyle ← handleSpacing "padding" padding
  let marginStyle ← handleSpacing "margin" margin
  let style := objLiteral
    ([ ("display", .str "flex"),
       ("flexDirection", .str "row"),
       ("justifyContent", .str justifyContent),
       ("alignItems", .str alignItems) ]
      ++ paddingStyle ++ marginStyle
      ++ [ ("width", .str (if mainAxisSize.isStr "max" then "100%" else "auto")) ])
  .ok (.element "div" [] (removeUndefinedStyles style) [.expr props.children])

/-! ## `src/components/Column.jsx` -/

/-- Props of `Column`; an omitted prop is `undefined`. -/
structure ColumnProps where
  padding : JSValue := .undefined
  margin : JSValue := .undefined
  mainAxisAlignment : JSValue := .undefined
  crossAxisAlignment : JSValue := .undefined
  mainAxisSize : JSValue := .undefined
  children : JSValue := .undefined

/-- The `switch (mainAxisAlignment)` of `Column`. -/
def Column.justifyContent (mainAxisAlignment : JSValue) : String :=
  match mainAxisAlignment with
  | .str "start" => "flex-start"
  | .str "center" => "center"
  | .str "end" => "flex-end"
  | .str "spaceBetween" => "space-between"
  | .str "spaceAround" => "space-around"
  | .str "spaceEvenly" => "space-evenly"
  | _ => "flex-start"

/-- The `switch (crossAxisAlignment)` of `Column`. -/
def Column.alignItems (crossAxisAlignment : JSValue) : String :=
  match crossAxisAlignment with
  | .str "start" => "flex-start"
  | .str "center" => "center"
  | .str "end" => "flex-end"
  | .str "stretch" => "stretch"
  | .str "baseline" => "baseline"
  | _ => "stretch"

/-- The `Column` component. -/
def Column (props : ColumnProps) : Except JSError Markup := do
  let padding := props.padding.orDefault (.num (.int 0))
  let margin := props.margin.orDefault (.num (.int 0))
  let mainAxisAlignment := props.mainAxisAlignment.orDefault (.str "start")
  let crossAxisAlignment := props.crossAxisAlignment.orDefault (.str "stretch")
  let mainAxisSize := props.mainAxisSize.orDefault (.str "max")
  let justifyContent := Column.justifyContent mainAxisAlignment
  let alignItems := Column.alignItems crossAxisAlignment
  let paddingStyle ← handleSpacing "padding" padding
  let marginStyle ← handleSpacing "margin" margin
  let style := objLiteral
    ([ ("display", .str "flex"),
       ("flexDirection", .str "column"),
       ("justifyContent", .str justifyContent),
       ("alignItems", .str alignItems) ]
      ++ paddingStyle ++ marginStyle
      ++ [ ("height", .str (if mainAxisSize.isStr "max" then "100%" else "auto")) ])
  .ok (.element "div" [] (removeUndefinedStyles style) [.expr props.children])


/-! ## `src/components/ListView.jsx` -/

/-- Props of `ListView`; an omitted prop is `undefined`. -/
structure ListViewProps where
  padding : JSValue := .undefined
  margin : JSValue := .undefined
  direction : JSValue := .undefined
  alignment : JSValue := .undefined
  crossAxisAlignment : JSValue := .undefined
  spacing : JSValue := .undefined
  children : JSValue := .undefined

/-- The `switch (alignment)` of `ListView`. -/
def ListView.justifyContent (alignment : JSValue) : String :=
  match alignment with
  | .str "start" => "flex-start"
  | .str "center" => "center"
  | .str "end" => "flex-end"
  | .str "spaceBetween" => "space-between"
  | .str "spaceAround" => "space-around"
  | .str "spaceEvenly" => "space-evenly"
  | _ => "flex-start"

/-- The `switch (crossAxisAlignment)` of `ListView`. -/
def ListView.alignItems (crossAxisAlignment : JSValue) : String :=
  match crossAxisAlignment with
  | .str "start" => "flex-start"
  | .str "center" => "center"
  | .str "end" => "flex-end"
  | .str "stretch" => "stretch"
  | .str "baseline" => "baseline"
  | _ => "stretch"

/-- The `ListView` component. -/
def ListView (props : ListViewProps) : Except JSError Markup := do
  let padding := props.padding.orDefault (.num (.int 0))
  let margin := props.margin.orDefault (.num (.int 0))
  let direction := props.direction.orDefault (.str "vertical")
  let alignment := props.alignment.orDefault (.str "start")
  let crossAxisAlignment := props.crossAxisAlignment.orDefault (.str "stretch")
  let spacing := props.spacing.orDefault (.num (.int 0))
  let justifyContent := ListView.justifyContent alignment
  let alignItems := ListView.alignItems crossAxisAlignment
  let flexDirection := if direction.isStr "vertical" then "column" else "row"
  let overflowDirection := if direction.isStr "vertical" then "auto hidden" else "hidden auto"
  let gap := pxIfNumber spacing
  let paddingStyle ← handleSpacing "padding" padding
  let marginStyle ← handleSpacing "margin" margin
  let style := objLiteral
    ([ ("display", .str "flex"),
       ("flexDirection", .str flexDirection),
       ("justifyContent", .str justifyContent),
       ("alignItems", .str alignItems),
       ("gap", gap),
       ("overflow", .str overflowDirection) ]
      ++ paddingStyle ++ marginStyle)
  .ok (.element "div" [] (removeUndefinedStyles style) [.expr props.children])

/-! ## `src/components/Wrap.jsx` -/

/-- Props of `Wrap`; an omitted prop is `undefined`. -/
structure WrapProps where
  padding : JSValue := .undefined
  margin : JSValue := .undefined
  direction : JSValue := .undefined
  alignment : JSValue := .undefined
  crossAxisAlignment : JSValue := .undefined
  runAlignment : JSValue := .undefined
  spacing : JSValue := .undefined
  runSpacing : JSValue := .undefined
  children : JSValue := .undefined

/-- The `switch (alignment)` of `Wrap`. -/
def Wrap.justifyContent (alignment : JSValue) : String :=
  match alignment with
  | .str "start" => "flex-start"
  | .str "center" => "center"
  | .str "end" => "flex-end"
  | .str "spaceBetween" => "space-between"
  | .str "spaceAround" => "space-around"
  | .str "spaceEvenly" => "space-evenly"
  | _ => "flex-start"

/-- The `switch (crossAxisAlignment)` of `Wrap`. -/
def Wrap.alignItems (crossAxisAlignment : JSValue) : String :=
  match crossAxisAlignment with
  | .str "start" => "flex-start"
  | .str "center" => "center"
  | .str "end" => "flex-end"
  | .str "stretch" => "stretch"
  | .str "baseline" => "baseline"
  | _ => "flex-start"

/-- The `switch (runAlignment)` of `Wrap`. -/
def Wrap.alignContent (runAlignment : JSValue) : String :=
  match runAlignment with
  | .str "start" => "flex-start"
  | .str "center" => "center"
  | .str "end" => "flex-end"
  | .str "spaceBetween" => "space-between"
  | .str "spaceAround" => "space-around"
  | .str "spaceEvenly" => "space-evenly"
  | _ => "flex-start"

/-- The `Wrap` component. -/
def Wrap (props : WrapProps) : Except JSError Markup := do
  let padding := props.padding.orDefault (.num (.int 0))
  let margin := props.margin.orDefault (.num (.int 0))
  let direction := props.direction.orDefault (.str "horizontal")
  let alignment := props.alignment.orDefault (.str "start")
  let crossAxisAlignment := props.crossAxisAlignment.orDefault (.str "start")
  let runAlignment := props.runAlignment.orDefault (.str "start")
  let spacing := props.spacing.orDefault (.num (.int 0))
  let runSpacing := props.runSpacing.orDefault (.num (.int 0))
  let justifyContent := Wrap.justifyContent alignment
  let alignItems := Wrap.alignItems crossAxisAlignment
  let alignContent := Wrap.alignContent runAlignment
  let flexDirection := if direction.isStr "horizontal" then "row" else "column"
  let gap := pxIfNumber spacing
  let rowGap := pxIfNumber runSpacing
  let paddingStyle ← handleSpacing "padding" padding
  let marginStyle ← handleSpacing "margin" margin
  let style := objLiteral
    ([ ("display", .str "flex"),
       ("flexWrap", .str "wrap"),
       ("flexDirection", .str flexDirection),
       ("justifyContent", .str justifyContent),
       ("alignItems", .str alignItems),
       ("alignContent", .str alignContent),
       ("gap", gap),
       ("rowGap", rowGap) ]
      ++ paddingStyle ++ marginStyle)
  .ok (.element "div" [] (removeUndefinedStyles style) [.expr props.children])

/-! ## `src/components/GridView.jsx` -/

/-- Props of `GridView`; an omitted prop is `undefined`. -/
structure GridViewProps where
  padding : JSValue := .undefined
  margin : JSValue := .undefined
  columns : JSValue := .undefined
  columnGap : JSValue := .undefined
  rowGap : JSValue := .undefined
  alignment : JSValue := .undefined
  justifyItems : JSValue := .undefined
  children : JSValue := .undefined

/-- The `GridView` component. -/
def GridView (props : GridViewProps) : Except JSError Markup := do
  let padding := props.padding.orDefault (.num (.int 0))
  let margin := props.margin.orDefault (.num (.int 0))
  let columns := props.columns.orDefault (.num (.int 2))
  let columnGap := props.columnGap.orDefault (.num (.int 0))
  let rowGap := props.rowGap.orDefault (.num (.int 0))
  let alignment := props.alignment.orDefault (.str "start")
  let justifyItems := props.justifyItems.orDefault (.str "stretch")
  let paddingStyle ← handleSpacing "padding" padding
  let marginStyle ← handleSpacing "margin" margin
  let style := objLiteral
    ([ ("display", .str "grid"),
       ("gridTemplateColumns", .str ("repeat(" ++ columns.toStr ++ ", 1fr)")),
       ("columnGap", pxIfNumber columnGap),
       ("rowGap", pxIfNumber rowGap),
       ("alignItems", alignment),
       ("justifyItems", justifyItems) ]
      ++ paddingStyle ++ marginStyle)
  .ok (.element "div" [] (removeUndefinedStyles style) [.expr props.children])

/-! ## `src/components/Container.jsx` -/

/-- Props of `Container`; an omitted prop is `undefined`. -/
structure ContainerProps where
  width : JSValue := .undefined
  height : JSValue := .undefined
  padding : JSValue := .undefined
  margin : JSValue := .undefined
  alignment : JSValue := .undefined
  decoration : JSValue := .undefined
  child : JSValue := .undefined

/-- The default value of the `decoration` parameter of `Container`. -/
def Container.defaultDecoration : JSValue :=
  .obj
    [ ("backgroundColor", .str "transparent"),
      ("border", .obj [("width", .num (.int 0)), ("color", .str "black")]),
      ("borderRadius", .num (.int 0)),
      ("boxShadow", .obj
        [ ("offset", .obj [("x", .num (.int 0)), ("y", .num (.int 0))]),
          ("blurRadius", .num (.int 0)),
          ("spreadRadius", .num (.int 0)),
          ("color", .str "rgba(0, 0, 0, 0)") ]),
      ("gradient", .obj
        [ ("direction", .str "to top"),
          ("colors", .arr [.str "#f0f0f0", .str "#ffffff"]) ]) ]

/-- The `switch (alignment)` of `Container`: the pair `(justifyContent, alignItems)`. -/
def Container.alignmentSwitch (alignment : JSValue) : String × String :=
  match alignment with
  | .str "topLeft" => ("flex-start", "flex-start")
  | .str "topCenter" => ("center", "flex-start")
  | .str "topRight" => ("flex-end", "flex-start")
  | .str "centerLeft" => ("flex-start", "center")
  | .str "center" => ("center", "center")
  | .str "centerRight" => ("flex-end", "center")
  | .str "bottomLeft" => ("flex-start", "flex-end")
  | .str "bottomCenter" => ("center", "flex-end")
  | .str "bottomRight" => ("flex-end", "flex-end")
  | _ => ("center", "center")

/-- The `border` entry of `Container`:
`border && (border.width + (number ? "px" : "") + " solid " + border.color)`. -/
def Container.borderStyle (border : JSValue) : Except JSError JSValue :=
  if border.truthy then do
    let width ← border.getProp "width"
    let color ← border.getProp "color"
    .ok (.str (width.toStr ++ (if width.typeof = "number" then "px" else "")
      ++ " solid " ++ color.toStr))
  else .ok border

/-- The `borderRadius` entry of `Container`. -/
def Container.borderRadiusStyle (borderRadius : JSValue) : JSValue :=
  if borderRadius.truthy then .str (pxIfNumber borderRadius).toStr else borderRadius

/-- The `boxShadow` entry of `Container`: the four lengths and the color, separated by
single spaces. -/
def Container.boxShadowStyle (boxShadow : JSValue) : Except JSError JSValue :=
  if boxShadow.truthy then do
    let offset ← boxShadow.getProp "offset"
    let x ← offset.getProp "x"
    let y ← offset.getProp "y"
    let blurRadius ← boxShadow.getProp "blurRadius"
    let spreadRadius ← boxShadow.getProp "spreadRadius"
    let color ← boxShadow.getProp "color"
    .ok (.str ((pxIfNumber x).toStr ++ " " ++ (pxIfNumber y).toStr ++ " "
      ++ (pxIfNumber blurRadius).toStr ++ " " ++ (pxIfNumber spreadRadius).toStr ++ " "
      ++ color.toStr))
  else .ok boxShadow

/-- The `background` entry of `Container`. -/
def Container.backgroundStyle (gradient : JSValue) : Except JSError JSValue :=
  if gradient.truthy then do
    let direction ← gradient.getProp "direction"
    let colors ← gradient.getProp "colors"
    let joined ← colors.join ", "
    .ok (.str ("linear-gradient(" ++ direction.toStr ++ ", " ++ joined ++ ")"))
  else .ok .undefined

/-- The `Container` component. -/
def Container (props : ContainerProps) : Except JSError Markup := do
  let width := props.width.orDefault (.str "auto")
  let height := props.height.orDefault (.str "auto")
  let padding := props.padding.orDefault (.num (.int 0))
  let margin := props.margin.orDefault (.num (.int 0))
  let alignment := props.alignment.orDefault (.str "topLeft")
  let decoration := props.decoration.orDefault Container.defaultDecoration
  let backgroundColor ← decoration.getProp "backgroundColor"
  let border ← decoration.getProp "border"
  let borderRadius ← decoration.getProp "borderRadius"
  let boxShadow ← decoration.getProp "boxShadow"
  let gradient ← decoration.getProp "gradient"
  let (justifyContent, alignItems) := Container.alignmentSwitch alignment
  let marginStyle ← handleSpacing "margin" margin
  let paddingStyle ← handleSpacing "padding" padding
  let borderV ← Container.borderStyle border
  let boxShadowV ← Container.boxShadowStyle boxShadow
  let backgroundV ← Container.backgroundStyle gradient
  let style := objLiteral
    ([ ("width", handleSize width),
       ("height", handleSize height) ]
      ++ marginStyle ++ paddingStyle
      ++ [ ("display", .str "flex"),
           ("justifyContent", .str justifyContent),
           ("alignItems", .str alignItems),
           ("backgroundColor", backgroundColor),
           ("border", borderV),
           ("borderRadius", Container.borderRadiusStyle borderRadius),
           ("boxShadow", boxShadowV),
           ("background", backgroundV),
           ("overflow", .str "hidden") ])
  .ok (.element "div" [] (removeUndefinedStyles style) [.expr props.child])

/-! ## `src/components/Icon.jsx` -/

/-- Props of `Icon`; an omitted prop is `undefined`.  The `style` prop, when supplied, is an
object. -/
structure IconProps where
  iconLibrary : JSValue := .undefined
  iconData : JSValue := .undefined
  size : JSValue := .undefined
  color : JSValue := .undefined
  style : Option JSObject := none

/-- The `iconStyle` object of `Icon`. -/
def Icon.iconStyle (props : IconProps) : JSObject :=
  let size := props.size.orDefault (.num (.int 24))
  let color := props.color.orDefault (.str "#000")
  objLiteral
    ([ ("fontSize", pxIfNumber size),
       ("color", color) ]
      ++ props.style.getD [])

/-- The `Icon` component; `none` is the `undefined` it returns when no branch assigns
`iconContent`. -/
def Icon (props : IconProps) : Option Markup :=
  let iconLibrary := props.iconLibrary.orDefault (.str "font")
  let color := props.color.orDefault (.str "#000")
  let iconStyle := Icon.iconStyle props
  if iconLibrary.isStr "font" then
    some (.element "i" [("className", props.iconData)] (removeUndefinedStyles iconStyle) [])
  else if iconLibrary.isStr "material" then
    some (.element "i" [("className", .str "material-icons")]
      (removeUndefinedStyles iconStyle) [.expr props.iconData])
  else if iconLibrary.isStr "svg" then
    some (.element "svg"
      [ ("width", objGet iconStyle "fontSize"),
        ("height", objGet iconStyle "fontSize"),
        ("viewBox", .str "0 0 24 24"),
        ("dangerouslySetInnerHTML", .obj [("__html", props.iconData)]) ]
      (objLiteral (iconStyle ++ [("fill", color)])) [])
  else none


/-! ## `src/components/AnimatedContainer.jsx` -/

/-- Props of `AnimatedContainer`; an omitted prop is `undefined`. -/
structure AnimatedContainerProps where
  width : JSValue := .undefined
  height : JSValue := .undefined
  padding : JSValue := .undefined
  margin : JSValue := .undefined
  alignment : JSValue := .undefined
  decoration : JSValue := .undefined
  duration : JSValue := .undefined
  easing : JSValue := .undefined
  child : JSValue := .undefined

/-- The default value of the `decoration` parameter of `AnimatedContainer`. -/
def AnimatedContainer.defaultDecoration : JSValue :=
  .obj
    [ ("backgroundColor", .str "transparent"),
      ("border", .obj [("width", .num (.int 0)), ("color", .str "black")]),
      ("borderRadius", .num (.int 0)),
      ("boxShadow", .obj
        [ ("offset", .obj [("x", .num (.int 0)), ("y", .num (.int 0))]),
          ("blurRadius", .num (.int 0)),
          ("spreadRadius", .num (.int 0)),
          ("color", .str "rgba(0, 0, 0, 0)") ]),
      ("gradient", .obj
        [ ("direction", .str "to top"),
          ("colors", .arr [.str "#f0f0f0", .str "#ffffff"]) ]) ]

/-- Whether the characters `needle` occur contiguously in `hay`. -/
def containsChars (needle : List Char) : List Char → Bool
  | [] => needle.isEmpty
  | c :: cs => needle.isPrefixOf (c :: cs) || containsChars needle cs

/-- The method call `v.includes("s")` with a string argument: the substring test on a
string, the membership test on an array, a `TypeError` on every other value. -/
def JSValue.includes (v : JSValue) (needle : String) : Except JSError Bool :=
  match v with
  | .str s => .ok (containsChars needle.data s.data)
  | .arr items => .ok (items.any (fun item => item.isStr needle))
  | _ => .error .typeError

/-- The `justifyContent` entry of `AnimatedContainer`:
`includes("center") ? "center" : includes("top") ? "flex-start" : "flex-end"`. -/
def AnimatedContainer.justifyContent (alignment : JSValue) : Except JSError String := do
  let hasCenter ← alignment.includes "center"
  if hasCenter then .ok "center"
  else
    let hasTop ← alignment.includes "top"
    .ok (if hasTop then "flex-start" else "flex-end")

/-- The `alignItems` entry of `AnimatedContainer`:
`includes("center") ? "center" : includes("start") ? "flex-start" : "flex-end"`. -/
def AnimatedContainer.alignItems (alignment : JSValue) : Except JSError String := do
  let hasCenter ← alignment.includes "center"
  if hasCenter then .ok "center"
  else
    let hasStart ← alignment.includes "start"
    .ok (if hasStart then "flex-start" else "flex-end")

/-- The style object of `AnimatedContainer` before cleaning.  The initial state
(`withBox = true`) has the entries `display` and `overflow`; the object the effect sets
(`withBox = false`) is the same without them.  The entries `border`, `borderRadius`,
`boxShadow` and `background` are written as in `Container`. -/
def AnimatedContainer.styleEntries (props : AnimatedContainerProps) (withBox : Bool) :
    Except JSError JSObject := do
  let width := props.width.orDefault (.str "auto")
  let height := props.height.orDefault (.str "auto")
  let padding := props.padding.orDefault (.num (.int 0))
  let margin := props.margin.orDefault (.num (.int 0))
  let alignment := props.alignment.orDefault (.str "topLeft")
  let decoration := props.decoration.orDefault AnimatedContainer.defaultDecoration
  let duration := props.duration.orDefault (.num (.int 300))
  let easing := props.easing.orDefault (.str "ease")
  let backgroundColor ← decoration.getProp "backgroundColor"
  let border ← decoration.getProp "border"
  let borderRadius ← decoration.getProp "borderRadius"
  let boxShadow ← decoration.getProp "boxShadow"
  let gradient ← decoration.getProp "gradient"
  let marginStyle ← handleSpacing "margin" margin
  let paddingStyle ← handleSpacing "padding" padding
  let justifyContent ← AnimatedContainer.justifyContent alignment
  let alignItems ← AnimatedContainer.alignItems alignment
  let backgroundV ← Container.backgroundStyle gradient
  let borderV ← Container.borderStyle border
  let boxShadowV ← Container.boxShadowStyle boxShadow
  .ok (objLiteral
    ([ ("width", handleSize width),
       ("height", handleSize height) ]
      ++ marginStyle ++ paddingStyle
      ++ (if withBox then [("display", JSValue.str "flex")] else [])
      ++ [ ("justifyContent", .str justifyContent),
           ("alignItems", .str alignItems),
           ("backgroundColor", if gradient.truthy then .undefined else backgroundColor),
           ("background", backgroundV),
           ("border", borderV),
           ("borderRadius", Container.borderRadiusStyle borderRadius),
           ("boxShadow", boxShadowV),
           ("transition", .str ("all " ++ duration.toStr ++ "ms " ++ easing.toStr)) ]
      ++ (if withBox then [("overflow", JSValue.str "hidden")] else [])))

/-- The first render of `AnimatedContainer`: the state is the initial style. -/
def AnimatedContainer (props : AnimatedContainerProps) : Except JSError Markup := do
  let initial ← AnimatedContainer.styleEntries props true
  .ok (.element "div" [] (removeUndefinedStyles initial) [.expr props.child])

/-- The render of `AnimatedContainer` after its effect has run: the initializer of the state
is evaluated again and dropped, and the state is the style the effect set. -/
def AnimatedContainer.afterEffect (props : AnimatedContainerProps) : Except JSError Markup := do
  let _ ← AnimatedContainer.styleEntries props true
  let updated ← AnimatedContainer.styleEntries props false
  .ok (.element "div" [] (removeUndefinedStyles updated) [.expr props.child])

/-! ## `src/components/Text.jsx` -/

/-- Props of `Text`; an omitted prop is `undefined`. -/
structure TextProps where
  data : JSValue := .undefined
  textAlign : JSValue := .undefined
  style : JSValue := .undefined

/-- The `background` entry of `Text`. -/
def Text.backgroundStyle (gradient : JSValue) : Except JSError JSValue :=
  if gradient.truthy then do
    let direction ← gradient.getProp "direction"
    let colors ← gradient.getProp "colors"
    let joined ← colors.join ", "
    .ok (.str ("linear-gradient(" ++ direction.toStr ++ ", " ++ joined ++ ")"))
  else .ok .undefined

/-- The `Text` component. -/
def Text (props : TextProps) : Except JSError Markup := do
  let textAlign := props.textAlign.orDefault (.str "left")
  let styleProp := props.style.orDefault (.obj [])
  let fontSize := (← styleProp.getProp "fontSize").orDefault (.str "16px")
  let fontWeight := (← styleProp.getProp "fontWeight").orDefault (.str "normal")
  let color := (← styleProp.getProp "color").orDefault (.str "black")
  let gradient ← styleProp.getProp "gradient"
  let fontFamily := (← styleProp.getProp "fontFamily").orDefault (.str "Arial, sans-serif")
  let letterSpacing := (← styleProp.getProp "letterSpacing").orDefault (.str "normal")
  let lineHeight := (← styleProp.getProp "lineHeight").orDefault (.str "normal")
  let background ← Text.backgroundStyle gradient
  let style := objLiteral
    [ ("fontSize", pxIfNumber fontSize),
      ("fontWeight", fontWeight),
      ("textAlign", textAlign),
      ("fontFamily", fontFamily),
      ("letterSpacing", letterSpacing),
      ("lineHeight", lineHeight),
      ("background", background),
      ("WebkitBackgroundClip", if gradient.truthy then .str "text" else .undefined),
      ("WebkitTextFillColor", if gradient.truthy then .str "transparent" else color),
      ("color", if gradient.truthy then .undefined else color) ]
  .ok (.element "div" [] (removeUndefinedStyles style) [.expr props.data])

/-! ## `src/components/Positioned.jsx` -/

/-- Props of `Positioned`; an omitted prop is `undefined`. -/
structure PositionedProps where
  top : JSValue := .undefined
  bottom : JSValue := .undefined
  left : JSValue := .undefined
  right : JSValue := .undefined
  child : JSValue := .undefined

/-- The statement `delete o[k]`. -/
def objDelete (o : JSObject) (k : String) : JSObject :=
  o.filter (fun kv => kv.1 != k)

/-- The loop of `Positioned` over `Object.keys(style)`:
`style[key] === undefined && delete style[key]`. -/
def Positioned.deleteUndefined (style : JSObject) : JSObject :=
  (objKeys style).foldl
    (fun o key => if (objGet o key).isUndefined then objDelete o key else o) style

/-- The `Positioned` component. -/
def Positioned (props : PositionedProps) : Markup :=
  let style := objLiteral
    [ ("position", .str "absolute"),
      ("top", pxIfNumber props.top),
      ("bottom", pxIfNumber props.bottom),
      ("left", pxIfNumber props.left),
      ("right", pxIfNumber props.right) ]
  let style := Positioned.deleteUndefined style
  .element "div" [] (removeUndefinedStyles style) [.expr props.child]

/-! ## The document head, for the effects of the progress indicators -/

/-- A DOM node as the effects use it: its identity, its tag, its `type` attribute and the
text of its child text node. -/
structure DomNode where
  id : Nat
  tag : String
  typeAttr : String
  text : String
deriving DecidableEq, Repr

/-- The document: the children of `document.head` in order, and the identity the next
created node gets. -/
structure Document where
  head : List DomNode
  nextId : Nat
deriving DecidableEq, Repr

/-- The error of the DOM: `removeChild` on a node that is not a child. -/
inductive DomError where
  | notFound
deriving DecidableEq, Repr

/-- A document is well formed when its head children have pairwise distinct identities, all
of them already given out. -/
def Document.WellFormed (doc : Document) : Prop :=
  (doc.head.map DomNode.id).Nodup ∧ ∀ n ∈ doc.head, n.id < doc.nextId

/-- The call `document.createElement(tag)`: a new node with a fresh identity. -/
def Document.createElement (doc : Document) (tag : String) : DomNode × Document :=
  (⟨doc.nextId, tag, "", ""⟩, { doc with nextId := doc.nextId + 1 })

/-- The call `document.head.appendChild(node)`: the node becomes the last child (a node
already among the children is moved). -/
def Document.appendToHead (doc : Document) (node : DomNode) : Document :=
  { doc with head := doc.head.filter (fun n => n.id != node.id) ++ [node] }

/-- The call `document.head.removeChild(node)`: the child with the identity of `node` is
removed; a `NotFoundError` when there is none. -/
def Document.removeFromHead (doc : Document) (node : DomNode) : Except DomError Document :=
  if doc.head.any (fun n => n.id == node.id) then
    .ok { doc with head := doc.head.filter (fun n => n.id != node.id) }
  else .error .notFound

/-! ## `src/components/CircularProgressIndicator.jsx` -/

/-- Props of `CircularProgressIndicator`; an omitted prop is `undefined`. -/
structure CircularProgressIndicatorProps where
  size : JSValue := .undefined
  color : JSValue := .undefined
  thickness : JSValue := .undefined
  indeterminate : JSValue := .undefined

/-- The template literal `keyframes` of `CircularProgressIndicator`. -/
def CircularProgressIndicator.keyframes : String :=
  "\n      @keyframes spin \x7b\n        0% \x7b transform: rotate(0deg); \x7d\n        100% \x7b transform: rotate(360deg); \x7d\n      \x7d\n    "

/-- The effect of `CircularProgressIndicator`, run on mount: it creates the style element,
gives it its type and its text, and appends it to the head.  The result is the document
after the effect and the element the cleanup function holds. -/
def CircularProgressIndicator.mountEffect (doc : Document) : Document × DomNode :=
  let (styleElement, doc) := doc.createElement "style"
  let styleElement := { styleElement with typeAttr := "text/css" }
  let styleElement := { styleElement with text := CircularProgressIndicator.keyframes }
  (doc.appendToHead styleElement, styleElement)

/-- The cleanup function of the effect of `CircularProgressIndicator`, run on unmount. -/
def CircularProgressIndicator.cleanup (styleElement : DomNode) (doc : Document) :
    Except DomError Document :=
  doc.removeFromHead styleElement

/-- The `CircularProgressIndicator` component: what it renders. -/
def CircularProgressIndicator (props : CircularProgressIndicatorProps) : Markup :=
  let size := props.size.orDefault (.num (.int 40))
  let color := props.color.orDefault (.str "#000")
  let thickness := props.thickness.orDefault (.num (.int 4))
  let indeterminate := props.indeterminate.orDefault (.bool true)
  let sizeStyle := pxIfNumber size
  let style := objLiteral
    [ ("width", sizeStyle),
      ("height", sizeStyle),
      ("borderWidth", .str (thickness.toStr ++ "px")),
      ("borderStyle", .str "solid"),
      ("borderColor", .str (color.toStr ++ " " ++ color.toStr ++ " transparent")),
      ("borderRadius", .str "50%"),
      ("animation",
        .str (if indeterminate.truthy then "spin 1.2s linear infinite" else "none")) ]
  .element "div" [] (removeUndefinedStyles style) []

/-! ## `src/components/LinearProgressIndicator.jsx` -/

/-- Props of `LinearProgressIndicator`; an omitted prop is `undefined`. -/
structure LinearProgressIndicatorProps where
  width : JSValue := .undefined
  height : JSValue := .undefined
  color : JSValue := .undefined
  backgroundColor : JSValue := .undefined
  indeterminate : JSValue := .undefined
  value : JSValue := .undefined

/-- The template literal `keyframes` of `LinearProgressIndicator`. -/
def LinearProgressIndicator.keyframes : String :=
  "\n      @keyframes indeterminate \x7b\n        0% \x7b\n          left: -40%;\n          right: 100%;\n        \x7d\n        100% \x7b\n          left: 100%;\n          right: -40%;\n        \x7d\n      \x7d\n    "

/-- The effect of `LinearProgressIndicator`, run on mount. -/
def LinearProgressIndicator.mountEffect (doc : Document) : Document × DomNode :=
  let (styleElement, doc) := doc.createElement "style"
  let styleElement := { styleElement with typeAttr := "text/css" }
  let styleElement := { styleElement with text := LinearProgressIndicator.keyframes }
  (doc.appendToHead styleElement, styleElement)

/-- The cleanup function of the effect of `LinearProgressIndicator`, run on unmount. -/
def LinearProgressIndicator.cleanup (styleElement : DomNode) (doc : Document) :
    Except DomError Document :=
  doc.removeFromHead styleElement

/-- The `LinearProgressIndicator` component: what it renders. -/
def LinearProgressIndicator (props : LinearProgressIndicatorProps) : Markup :=
  let width := props.width.orDefault (.str "100%")
  let height := props.height.orDefault (.num (.int 4))
  let color := props.color.orDefault (.str "#000")
  let backgroundColor := props.backgroundColor.orDefault (.str "#e0e0e0")
  let indeterminate := props.indeterminate.orDefault (.bool true)
  let value := props.value.orDefault (.num (.int 0))
  let containerStyle := objLiteral
    [ ("width", pxIfNumber width),
      ("height", pxIfNumber height),
      ("backgroundColor", backgroundColor),
      ("overflow", .str "hidden"),
      ("position", .str "relative") ]
  let progressStyle := objLiteral
    [ ("width", .str (if indeterminate.truthy then "auto" else value.toStr ++ "%")),
      ("height", .str "100%"),
      ("backgroundColor", color),
      ("position", .str "absolute"),
      ("animation",
        .str (if indeterminate.truthy then "indeterminate 1.2s linear infinite" else "none")),
      ("transition", .str "width 0.3s ease") ]
  .element "div" [] (removeUndefinedStyles containerStyle)
    [.element "div" [] (removeUndefinedStyles progressStyle) []]

/-! ## `src/components/GestureDetector.jsx` -/

/-- The handler props of `GestureDetector`: whether each one is supplied. -/
structure GestureProps where
  onTap : Bool := false
  onDoubleTap : Bool := false
  onLongPress : Bool := false
  onMouseEnter : Bool := false
  onMouseLeave : Bool := false
  onMouseDown : Bool := false
  onMouseUp : Bool := false
deriving DecidableEq, Repr

/-- A call of a handler prop with an event object; events are told apart by a number. -/
inductive HandlerCall where
  | onTap (e : Nat)
  | onDoubleTap (e : Nat)
  | onLongPress (e : Nat)
  | onMouseEnter (e : Nat)
  | onMouseLeave (e : Nat)
  | onMouseDown (e : Nat)
  | onMouseUp (e : Nat)
deriving DecidableEq, Repr

/-- A timer the host holds after `setTimeout`: its handle, the time it is due, and the
event its callback `() => onLongPress(e)` has captured. -/
structure PendingTimer where
  id : Nat
  due : Nat
  event : Nat
deriving DecidableEq, Repr

/-- One mounted `GestureDetector` element and the timers of the host: the clock in
milliseconds, the handle the next `setTimeout` returns, the pending timers in the order they
were set, the props and the variable `timer` of the current render (`none` is `null`), and
the handler calls made so far. -/
structure GestureState where
  now : Nat
  nextTimerId : Nat
  pending : List PendingTimer
  props : GestureProps
  timer : Option Nat
  calls : List HandlerCall
deriving DecidableEq, Repr

/-- What happens to the element: the DOM events it has handlers for, a re-render with new
props, and time passing. -/
inductive GestureEvent where
  | mouseDown (e : Nat)
  | mouseUp (e : Nat)
  | click (e : Nat)
  | doubleClick (e : Nat)
  | mouseEnter (e : Nat)
  | mouseLeave (e : Nat)
  | rerender (props : GestureProps)
  | elapse (ms : Nat)
deriving DecidableEq, Repr

/-- The element after its first render: no timer set, `timer` is `null`.  Timer handles are
positive integers, so a handle is truthy. -/
def GestureDetector.mount (props : GestureProps) : GestureState :=
  { now := 0, nextTimerId := 1, pending := [], props := props, timer := none, calls := [] }

/-- The handler `handleMouseDown`: with `onLongPress` supplied it sets a timer of 500 ms and
stores its handle in `timer`; then it calls `onMouseDown` when supplied. -/
def GestureDetector.handleMouseDown (s : GestureState) (e : Nat) : GestureState :=
  let s :=
    if s.props.onLongPress then
      { s with
        pending := s.pending ++ [⟨s.nextTimerId, s.now + 500, e⟩]
        timer := some s.nextTimerId
        nextTimerId := s.nextTimerId + 1 }
    else s
  if s.props.onMouseDown then { s with calls := s.calls ++ [.onMouseDown e] } else s

/-- The handler `handleMouseUp`: when `timer` holds a handle it clears that timer; then it
calls `onMouseUp` when supplied. -/
def GestureDetector.handleMouseUp (s : GestureState) (e : Nat) : GestureState :=
  let s :=
    match s.timer with
    | some id => { s with pending := s.pending.filter (fun t => t.id != id) }
    | none => s
  if s.props.onMouseUp then { s with calls := s.calls ++ [.onMouseUp e] } else s

/-- Time passing by `ms` milliseconds: the pending timers that are due run their callback,
in the order they were set, and leave the list. -/
def GestureDetector.elapse (s : GestureState) (ms : Nat) : GestureState :=
  { s with
    now := s.now + ms
    pending := s.pending.filter (fun t => !decide (t.due ≤ s.now + ms))
    calls := s.calls
      ++ (s.pending.filter (fun t => decide (t.due ≤ s.now + ms))).map
          (fun t => HandlerCall.onLongPress t.event) }

/-- One step of the element.  A re-render runs the component function again: the handlers
of the new render see the new props and a new variable `timer`, which is `null`; the timers
of the host stay. -/
def GestureDetector.step (s : GestureState) : GestureEvent → GestureState
  | .mouseDown e => GestureDetector.handleMouseDown s e
  | .mouseUp e => GestureDetector.handleMouseUp s e
  | .click e => if s.props.onTap then { s with calls := s.calls ++ [.onTap e] } else s
  | .doubleClick e =>
    if s.props.onDoubleTap then { s with calls := s.calls ++ [.onDoubleTap e] } else s
  | .mouseEnter e =>
    if s.props.onMouseEnter then { s with calls := s.calls ++ [.onMouseEnter e] } else s
  | .mouseLeave e =>
    if s.props.onMouseLeave then { s with calls := s.calls ++ [.onMouseLeave e] } else s
  | .rerender props => { s with props := props, timer := none }
  | .elapse ms => GestureDetector.elapse s ms

/-- A sequence of steps. -/
def GestureDetector.run (s : GestureState) (events : List GestureEvent) : GestureState :=
  events.foldl GestureDetector.step s

/-- The milliseconds an event lets pass. -/
def GestureEvent.elapsed : GestureEvent → Nat
  | .elapse ms => ms
  | _ => 0

/-- The milliseconds a sequence of events lets pass. -/
def totalElapsed (events : List GestureEvent) : Nat :=
  (events.map GestureEvent.elapsed).sum

/-- Whether an event is a mouse-down. -/
def GestureEvent.isMouseDown : GestureEvent → Bool
  | .mouseDown _ => true
  | _ => false

/-- Whether an event is a mouse-up. -/
def GestureEvent.isMouseUp : GestureEvent → Bool
  | .mouseUp _ => true
  | _ => false

/-- Whether an event is a re-render. -/
def GestureEvent.isRerender : GestureEvent → Bool
  | .rerender _ => true
  | _ => false

/-- The keys `handleSpacing` can produce for a prefix. -/
def spacingKeys (pfx : String) : List String :=
  [pfx, pfx ++ "Top", pfx ++ "Bottom", pfx ++ "Left", pfx ++ "Right", pfx ++ "Inline",
    pfx ++ "Block"]

/-! ## The tables of the specification -/

/-- The vertical part of an alignment keyword. -/
inductive VerticalPart where
  | top
  | center
  | bottom
deriving DecidableEq, Repr

/-- The horizontal part of an alignment keyword. -/
inductive HorizontalPart where
  | left
  | center
  | right
deriving DecidableEq, Repr

/-- The nine alignment keywords, by their parts: `topLeft`, ..., plain `center`, ...,
`bottomRight`. -/
def alignmentKeyword : VerticalPart → HorizontalPart → String
  | .top, .left => "topLeft"
  | .top, .center => "topCenter"
  | .top, .right => "topRight"
  | .center, .left => "centerLeft"
  | .center, .center => "center"
  | .center, .right => "centerRight"
  | .bottom, .left => "bottomLeft"
  | .bottom, .center => "bottomCenter"
  | .bottom, .right => "bottomRight"

/-- The list of the nine alignment keywords. -/
def alignmentKeywords : List String :=
  ["topLeft", "topCenter", "topRight", "centerLeft", "center", "centerRight", "bottomLeft",
    "bottomCenter", "bottomRight"]

/-- The flex value of a horizontal part: Left, Center, Right. -/
def HorizontalPart.flex : HorizontalPart → String
  | .left => "flex-start"
  | .center => "center"
  | .right => "flex-end"

/-- The flex value of a vertical part: top, center, bottom. -/
def VerticalPart.flex : VerticalPart → String
  | .top => "flex-start"
  | .center => "center"
  | .bottom => "flex-end"

/-- The main-axis table of the specification: keyword and distribution rule. -/
def mainAxisTable : List (String × String) :=
  [ ("start", "flex-start"), ("center", "center"), ("end", "flex-end"),
    ("spaceBetween", "space-between"), ("spaceAround", "space-around"),
    ("spaceEvenly", "space-evenly") ]

/-- The main-axis rule the specification gives a prop value: the table entry of a keyword,
`flex-start` for every other value and for an omitted prop. -/
def specMainAxis (v : JSValue) : String :=
  match v with
  | .str s => (mainAxisTable.lookup s).getD "flex-start"
  | _ => "flex-start"

/-- The cross-axis table of the specification. -/
def crossAxisTable : List (String × String) :=
  [ ("start", "flex-start"), ("center", "center"), ("end", "flex-end"),
    ("stretch", "stretch"), ("baseline", "baseline") ]

/-- The cross-axis rule the specification gives a prop value: the table entry of a keyword,
and for every other value the rule `omitted` of the component's omitted prop. -/
def specCrossAxis (omitted : String) (v : JSValue) : String :=
  match v with
  | .str s => (crossAxisTable.lookup s).getD omitted
  | _ => omitted

/-- A prop of type string-or-number, as the prop types declare sizes, gaps and offsets. -/
inductive SizeValue where
  | number (n : JSNum)
  | string (s : String)
deriving DecidableEq, Repr

/-- The JavaScript value of a size. -/
def SizeValue.toJS : SizeValue → JSValue
  | .number n => .num n
  | .string s => .str s

/-- The CSS text the specification gives a size: a number followed by `px`, a string as it
is. -/
def SizeValue.css : SizeValue → String
  | .number n => n.toStr ++ "px"
  | .string s => s

/-- The CSS `overflow` shorthand read as overflow-x then overflow-y: the two keywords of a
two-keyword value, and one keyword for both axes. -/
def overflowAxes (value : String) : String × String :=
  let x := value.data.takeWhile (fun c => c != ' ')
  let rest := (value.data.dropWhile (fun c => c != ' ')).dropWhile (fun c => c == ' ')
  if rest.isEmpty then (String.mk x, String.mk x) else (String.mk x, String.mk rest)

/-- The entry the specification gives a side of `Positioned`: none for an omitted prop, the
key with the value suffixed by `px` when a number for a supplied one. -/
def positionedSide (key : String) (v : JSValue) : List (String × JSValue) :=
  if v.isUndefined then [] else [(key, pxIfNumber v)]

/-! ## Objects: reading, defining, literals -/

theorem objGet_append (a b : JSObject) (k : String) :
    objGet (a ++ b) k = if k ∈ objKeys a then objGet a k else objGet b k := by
  induction a with
  | nil => simp [objKeys]
  | cons hd tl ih =>
    obtain ⟨k0, v0⟩ := hd
    simp only [objKeys] at ih
    show objGet ((k0, v0) :: (tl ++ b)) k = _
    simp only [objKeys, List.map_cons, List.mem_cons, objGet, ih]
    by_cases h : k0 = k
    · subst h; simp
    · have h2 : ¬ k = k0 := fun e => h e.symm
      simp only [if_neg h]
      by_cases hm : k ∈ List.map Prod.fst tl
      · rw [if_pos hm, if_pos (Or.inr hm)]
      · rw [if_neg hm, if_neg (fun e => e.elim h2 hm)]

theorem objGet_of_not_mem (o : JSObject) (k : String) (h : k ∉ objKeys o) :
    objGet o k = .undefined := by
  induction o with
  | nil => rfl
  | cons hd tl ih =>
    obtain ⟨k0, v0⟩ := hd
    simp only [objKeys, List.map_cons, List.mem_cons, not_or] at h
    have h1 : ¬ k0 = k := fun e => h.1 e.symm
    simp only [objGet, h1, if_false]
    exact ih h.2

theorem objGet_objSet (o : JSObject) (k : String) (v : JSValue) (k2 : String) :
    objGet (objSet o k v) k2 = if k = k2 then v else objGet o k2 := by
  induction o with
  | nil => simp [objSet, objGet]
  | cons hd tl ih =>
    obtain ⟨k0, v0⟩ := hd
    by_cases h : k0 = k
    · subst h
      by_cases h2 : k0 = k2 <;> simp [objSet, objGet, h2]
    · by_cases h2 : k0 = k2
      · subst h2
        have h3 : ¬ k = k0 := fun e => h e.symm
        simp [objSet, objGet, h, h3]
      · simp [objSet, objGet, h, h2, ih]

theorem mem_objKeys_objSet (o : JSObject) (k : String) (v : JSValue) (k2 : String) :
    k2 ∈ objKeys (objSet o k v) ↔ k2 = k ∨ k2 ∈ objKeys o := by
  induction o with
  | nil => simp [objSet, objKeys]
  | cons hd tl ih =>
    obtain ⟨k0, v0⟩ := hd
    by_cases h : k0 = k
    · subst h; simp [objSet, objKeys]
    · simp only [objKeys] at ih
      simp only [objSet, h, if_false, objKeys, List.map_cons, List.mem_cons, ih]
      tauto

theorem objSet_of_not_mem (o : JSObject) (k : String) (v : JSValue) (h : k ∉ objKeys o) :
    objSet o k v = o ++ [(k, v)] := by
  induction o with
  | nil => rfl
  | cons hd tl ih =>
    obtain ⟨k0, v0⟩ := hd
    simp only [objKeys, List.map_cons, List.mem_cons, not_or] at h
    have h1 : ¬ k0 = k := fun e => h.1 e.symm
    simp only [objSet, h1, if_false, List.cons_append]
    rw [ih h.2]

theorem mem_of_mem_objSet (o : JSObject) (k : String) (v : JSValue) (e : String × JSValue)
    (h : e ∈ objSet o k v) : e = (k, v) ∨ e ∈ o := by
  induction o with
  | nil => simpa [objSet] using h
  | cons hd tl ih =>
    obtain ⟨k0, v0⟩ := hd
    by_cases hk : k0 = k
    · subst hk
      simp only [objSet, if_true, List.mem_cons] at h
      rcases h with h | h
      · exact Or.inl h
      · exact Or.inr (List.mem_cons_of_mem _ h)
    · simp only [objSet, hk, if_false, List.mem_cons] at h
      rcases h with h | h
      · exact Or.inr (by simp [h])
      · rcases ih h with h2 | h2
        · exact Or.inl h2
        · exact Or.inr (List.mem_cons_of_mem _ h2)

theorem nodup_objKeys_objSet (o : JSObject) (k : String) (v : JSValue)
    (h : (objKeys o).Nodup) : (objKeys (objSet o k v)).Nodup := by
  induction o with
  | nil => simp [objSet, objKeys]
  | cons hd tl ih =>
    obtain ⟨k0, v0⟩ := hd
    by_cases hk : k0 = k
    · subst hk; simpa [objSet, objKeys] using h
    · simp only [objKeys, List.map_cons, List.nodup_cons] at h
      simp only [objSet, hk, if_false, objKeys, List.map_cons, List.nodup_cons]
      refine ⟨?_, ih h.2⟩
      intro hmem
      have := (mem_objKeys_objSet tl k v k0).mp hmem
      rcases this with e | e
      · exact hk e
      · exact h.1 e

/-- Folding property definitions over an object, as an object literal does after its first
entries. -/
theorem foldl_objSet_of_nodup (l init : JSObject) (h : (objKeys (init ++ l)).Nodup) :
    l.foldl (fun o kv => objSet o kv.1 kv.2) init = init ++ l := by
  induction l generalizing init with
  | nil => simp
  | cons hd tl ih =>
    obtain ⟨k, v⟩ := hd
    have hk : k ∉ objKeys init := by
      intro hmem
      simp only [objKeys, List.map_append, List.map_cons] at h hmem
      have := (List.nodup_append.mp h).2.2
      exact this hmem (List.mem_cons_self _ _)
    simp only [List.foldl_cons]
    rw [objSet_of_not_mem init k v hk, ih]
    · simp
    · simpa using h

theorem objLiteral_of_nodup (l : JSObject) (h : (objKeys l).Nodup) : objLiteral l = l := by
  have := foldl_objSet_of_nodup l [] (by simpa using h)
  simpa [objLiteral] using this

theorem nodup_foldl_objSet (l init : JSObject) (h : (objKeys init).Nodup) :
    (objKeys (l.foldl (fun o kv => objSet o kv.1 kv.2) init)).Nodup := by
  induction l generalizing init with
  | nil => simpa using h
  | cons hd tl ih =>
    simp only [List.foldl_cons]
    exact ih _ (nodup_objKeys_objSet init hd.1 hd.2 h)

theorem nodup_objKeys_objLiteral (l : List (String × JSValue)) :
    (objKeys (objLiteral l)).Nodup :=
  nodup_foldl_objSet l [] (by simp [objKeys])

theorem mem_of_mem_foldl_objSet (l init : JSObject) (e : String × JSValue)
    (h : e ∈ l.foldl (fun o kv => objSet o kv.1 kv.2) init) : e ∈ init ∨ e ∈ l := by
  induction l generalizing init with
  | nil => exact Or.inl (by simpa using h)
  | cons hd tl ih =>
    simp only [List.foldl_cons] at h
    rcases ih _ h with h1 | h1
    · rcases mem_of_mem_objSet init hd.1 hd.2 e h1 with h2 | h2
      · exact Or.inr (by simp [h2])
      · exact Or.inl h2
    · exact Or.inr (List.mem_cons_of_mem _ h1)

theorem mem_of_mem_objLiteral (l : List (String × JSValue)) (e : String × JSValue)
    (h : e ∈ objLiteral l) : e ∈ l := by
  rcases mem_of_mem_foldl_objSet l [] e h with h1 | h1
  · simp at h1
  · exact h1

theorem objGet_foldl_objSet (l init : JSObject) (k : String) :
    objGet (l.foldl (fun o kv => objSet o kv.1 kv.2) init) k
      = if k ∈ objKeys l then objGet l.reverse k else objGet init k := by
  induction l generalizing init with
  | nil => simp [objKeys]
  | cons hd tl ih =>
    obtain ⟨k0, v0⟩ := hd
    simp only [List.foldl_cons, ih, objGet_objSet, List.reverse_cons, objGet_append]
    simp only [objKeys, List.map_reverse, List.mem_reverse, List.map_cons, List.mem_cons]
    by_cases h1 : k ∈ List.map Prod.fst tl
    · simp [h1]
    · by_cases h2 : k0 = k
      · subst h2; simp [h1, objGet]
      · have h3 : ¬ k = k0 := fun e => h2 e.symm
        simp [h1, objGet, h2, h3]

/-- Reading a key of an object literal gives the value of the last entry with that key. -/
theorem objGet_objLiteral (l : List (String × JSValue)) (k : String) :
    objGet (objLiteral l) k = objGet l.reverse k := by
  unfold objLiteral
  rw [objGet_foldl_objSet]
  by_cases h : k ∈ objKeys l
  · simp [h]
  · have : k ∉ objKeys l.reverse := by simpa [objKeys] using h
    simp [h, objGet_of_not_mem _ _ this, objGet]

theorem mem_objKeys_objLiteral (l : List (String × JSValue)) (k : String)
    (h : k ∈ objKeys (objLiteral l)) : k ∈ objKeys l := by
  simp only [objKeys, List.mem_map] at h ⊢
  obtain ⟨e, he, hk⟩ := h
  exact ⟨e, mem_of_mem_objLiteral l e he, hk⟩

theorem isUndefined_iff (v : JSValue) : v.isUndefined = true ↔ v = .undefined := by
  cases v <;> simp [JSValue.isUndefined]

/-! ## `StyleUtils` -/

theorem removeUndefinedStyles_eq_filter (o : JSObject) (h : (objKeys o).Nodup) :
    removeUndefinedStyles o = o.filter (fun kv => !kv.2.isUndefined) := by
  unfold removeUndefinedStyles
  apply objLiteral_of_nodup
  simp only [objKeys] at h ⊢
  exact (List.filter_sublist o).map Prod.fst |>.nodup h

theorem removeUndefinedStyles_no_undefined (o : JSObject) (e : String × JSValue)
    (h : e ∈ removeUndefinedStyles o) : e.2 ≠ .undefined := by
  have h1 := mem_of_mem_objLiteral _ e h
  simp only [List.mem_filter, Bool.not_eq_true', ← Bool.not_eq_true] at h1
  exact fun hu => h1.2 ((isUndefined_iff e.2).mpr hu)

theorem objGet_filter_undefined (o : JSObject) (k : String) (h : (objKeys o).Nodup) :
    objGet (o.filter (fun kv => !kv.2.isUndefined)) k = objGet o k := by
  induction o with
  | nil => rfl
  | cons hd tl ih =>
    obtain ⟨k0, v0⟩ := hd
    simp only [objKeys, List.map_cons, List.nodup_cons] at h
    have ih2 := ih h.2
    by_cases hu : v0.isUndefined = true
    · have hv : v0 = .undefined := (isUndefined_iff v0).mp hu
      simp only [List.filter, hu, Bool.not_true, objGet]
      by_cases hk : k0 = k
      · subst hk
        rw [if_pos rfl, hv]
        apply objGet_of_not_mem
        intro hmem
        simp only [objKeys, List.mem_map] at hmem
        obtain ⟨e, he, hek⟩ := hmem
        exact h.1 (List.mem_map.mpr ⟨e, (List.mem_filter.mp he).1, hek⟩)
      · rw [if_neg hk]; exact ih2
    · have hu2 : v0.isUndefined = false := by simpa using hu
      simp only [List.filter, hu2, Bool.not_false, objGet, ih2]

theorem objGet_removeUndefinedStyles (o : JSObject) (k : String) (h : (objKeys o).Nodup) :
    objGet (removeUndefinedStyles o) k = objGet o k := by
  rw [removeUndefinedStyles_eq_filter o h, objGet_filter_undefined o k h]

/-- Reading a key of a cleaned object literal: the value of the last entry with that key. -/
theorem objGet_removeUndefinedStyles_objLiteral (l : List (String × JSValue)) (k : String) :
    objGet (removeUndefinedStyles (objLiteral l)) k = objGet l.reverse k := by
  rw [objGet_removeUndefinedStyles _ _ (nodup_objKeys_objLiteral l), objGet_objLiteral]

theorem handleSpacing_ok_of_ne_null (pfx : String) (v : JSValue) (h : v ≠ .null) :
    ∃ o, handleSpacing pfx v = .ok o := by
  cases v <;> first
    | exact absurd rfl h
    | exact ⟨_, rfl⟩

theorem handleSpacing_keys (pfx : String) (v : JSValue) (o : JSObject)
    (h : handleSpacing pfx v = .ok o) : ∀ k ∈ objKeys o, k ∈ spacingKeys pfx := by
  intro k hk
  have key : ∀ l : List (String × JSValue), (∀ k ∈ objKeys l, k ∈ spacingKeys pfx) →
      o = objLiteral l → k ∈ spacingKeys pfx := by
    intro l hl ho
    subst ho
    exact hl k (mem_objKeys_objLiteral l k hk)
  cases v with
  | null => exact absurd h (by simp [handleSpacing, JSValue.typeof, JSValue.getProp, bind, Except.bind])
  | undefined =>
    refine key [] (by simp [objKeys]) ?_
    exact (Except.ok.inj h).symm
  | bool b =>
    refine key [] (by simp [objKeys]) ?_
    exact (Except.ok.inj h).symm
  | num n =>
    refine key _ ?_ (Except.ok.inj h).symm
    simp [objKeys, spacingKeys]
  | str s =>
    refine key _ ?_ (Except.ok.inj h).symm
    simp [objKeys, spacingKeys]
  | arr items =>
    refine key _ ?_ (Except.ok.inj h).symm
    simp [objKeys, spacingKeys]
  | obj props =>
    refine key _ ?_ (Except.ok.inj h).symm
    simp [objKeys, spacingKeys]

theorem orDefault_ne_null (v d : JSValue) (h : v ≠ .null) (hd : d ≠ .null) :
    v.orDefault d ≠ .null := by
  cases v <;> simp_all [JSValue.orDefault]

/-- A key outside `spacingKeys` is not among the entries `handleSpacing` spreads. -/
theorem objGet_skip_spacing (pfx : String) (v : JSValue) (o rest : JSObject) (k : String)
    (h : handleSpacing pfx v = .ok o) (hk : k ∉ spacingKeys pfx) :
    objGet (o.reverse ++ rest) k = objGet rest k := by
  rw [objGet_append, if_neg]
  intro hmem
  apply hk
  apply handleSpacing_keys pfx v o h
  simpa [objKeys] using hmem

theorem string_append_left_cancel (p a b : String) (h : p ++ a = p ++ b) : a = b := by
  have h1 := congrArg String.data h
  simp only [String.data_append] at h1
  exact String.ext (List.append_cancel_left h1)

/-! ## The flex components: what they render -/

theorem Row_render (p : RowProps) (hp : p.padding ≠ .null) (hm : p.margin ≠ .null) :
    ∃ po mo, handleSpacing "padding" (p.padding.orDefault (.num (.int 0))) = .ok po
      ∧ handleSpacing "margin" (p.margin.orDefault (.num (.int 0))) = .ok mo
      ∧ Row p = .ok (.element "div" [] (removeUndefinedStyles (objLiteral
          ([ ("display", .str "flex"),
             ("flexDirection", .str "row"),
             ("justifyContent",
               .str (Row.justifyContent (p.mainAxisAlignment.orDefault (.str "start")))),
             ("alignItems",
               .str (Row.alignItems (p.crossAxisAlignment.orDefault (.str "stretch")))) ]
            ++ po ++ mo
            ++ [ ("width", .str (if (p.mainAxisSize.orDefault (.str "max")).isStr "max"
                   then "100%" else "auto")) ]))) [.expr p.children]) := by
  obtain ⟨po, hpo⟩ := handleSpacing_ok_of_ne_null "padding" _
    (orDefault_ne_null p.padding (.num (.int 0)) hp (by simp))
  obtain ⟨mo, hmo⟩ := handleSpacing_ok_of_ne_null "margin" _
    (orDefault_ne_null p.margin (.num (.int 0)) hm (by simp))
  exact ⟨po, mo, hpo, hmo, by simp only [Row, hpo, hmo, bind, Except.bind]⟩

theorem Column_render (p : ColumnProps) (hp : p.padding ≠ .null) (hm : p.margin ≠ .null) :
    ∃ po mo, handleSpacing "padding" (p.padding.orDefault (.num (.int 0))) = .ok po
      ∧ handleSpacing "margin" (p.margin.orDefault (.num (.int 0))) = .ok mo
      ∧ Column p = .ok (.element "div" [] (removeUndefinedStyles (objLiteral
          ([ ("display", .str "flex"),
             ("flexDirection", .str "column"),
             ("justifyContent",
               .str (Column.justifyContent (p.mainAxisAlignment.orDefault (.str "start")))),
             ("alignItems",
               .str (Column.alignItems (p.crossAxisAlignment.orDefault (.str "stretch")))) ]
            ++ po ++ mo
            ++ [ ("height", .str (if (p.mainAxisSize.orDefault (.str "max")).isStr "max"
                   then "100%" else "auto")) ]))) [.expr p.children]) := by
  obtain ⟨po, hpo⟩ := handleSpacing_ok_of_ne_null "padding" _
    (orDefault_ne_null p.padding (.num (.int 0)) hp (by simp))
  obtain ⟨mo, hmo⟩ := handleSpacing_ok_of_ne_null "margin" _
    (orDefault_ne_null p.margin (.num (.int 0)) hm (by simp))
  exact ⟨po, mo, hpo, hmo, by simp only [Column, hpo, hmo, bind, Except.bind]⟩

theorem ListView_render (p : ListViewProps) (hp : p.padding ≠ .null) (hm : p.margin ≠ .null) :
    ∃ po mo, handleSpacing "padding" (p.padding.orDefault (.num (.int 0))) = .ok po
      ∧ handleSpacing "margin" (p.margin.orDefault (.num (.int 0))) = .ok mo
      ∧ ListView p = .ok (.element "div" [] (removeUndefinedStyles (objLiteral
          ([ ("display", .str "flex"),
             ("flexDirection", .str (if (p.direction.orDefault (.str "vertical")).isStr "vertical"
               then "column" else "row")),
             ("justifyContent",
               .str (ListView.justifyContent (p.alignment.orDefault (.str "start")))),
             ("alignItems",
               .str (ListView.alignItems (p.crossAxisAlignment.orDefault (.str "stretch")))),
             ("gap", pxIfNumber (p.spacing.orDefault (.num (.int 0)))),
             ("overflow", .str (if (p.direction.orDefault (.str "vertical")).isStr "vertical"
               then "auto hidden" else "hidden auto")) ]
            ++ po ++ mo))) [.expr p.children]) := by
  obtain ⟨po, hpo⟩ := handleSpacing_ok_of_ne_null "padding" _
    (orDefault_ne_null p.padding (.num (.int 0)) hp (by simp))
  obtain ⟨mo, hmo⟩ := handleSpacing_ok_of_ne_null "margin" _
    (orDefault_ne_null p.margin (.num (.int 0)) hm (by simp))
  exact ⟨po, mo, hpo, hmo, by simp only [ListView, hpo, hmo, bind, Except.bind]⟩

theorem Wrap_render (p : WrapProps) (hp : p.padding ≠ .null) (hm : p.margin ≠ .null) :
    ∃ po mo, handleSpacing "padding" (p.padding.orDefault (.num (.int 0))) = .ok po
      ∧ handleSpacing "margin" (p.margin.orDefault (.num (.int 0))) = .ok mo
      ∧ Wrap p = .ok (.element "div" [] (removeUndefinedStyles (objLiteral
          ([ ("display", .str "flex"),
             ("flexWrap", .str "wrap"),
             ("flexDirection", .str (if (p.direction.orDefault (.str "horizontal")).isStr
               "horizontal" then "row" else "column")),
             ("justifyContent",
               .str (Wrap.justifyContent (p.alignment.orDefault (.str "start")))),
             ("alignItems",
               .str (Wrap.alignItems (p.crossAxisAlignment.orDefault (.str "start")))),
             ("alignContent",
               .str (Wrap.alignContent (p.runAlignment.orDefault (.str "start")))),
             ("gap", pxIfNumber (p.spacing.orDefault (.num (.int 0)))),
             ("rowGap", pxIfNumber (p.runSpacing.orDefault (.num (.int 0)))) ]
            ++ po ++ mo))) [.expr p.children]) := by
  obtain ⟨po, hpo⟩ := handleSpacing_ok_of_ne_null "padding" _
    (orDefault_ne_null p.padding (.num (.int 0)) hp (by simp))
  obtain ⟨mo, hmo⟩ := handleSpacing_ok_of_ne_null "margin" _
    (orDefault_ne_null p.margin (.num (.int 0)) hm (by simp))
  exact ⟨po, mo, hpo, hmo, by simp only [Wrap, hpo, hmo, bind, Except.bind]⟩

theorem GridView_render (p : GridViewProps) (hp : p.padding ≠ .null) (hm : p.margin ≠ .null) :
    ∃ po mo, handleSpacing "padding" (p.padding.orDefault (.num (.int 0))) = .ok po
      ∧ handleSpacing "margin" (p.margin.orDefault (.num (.int 0))) = .ok mo
      ∧ GridView p = .ok (.element "div" [] (removeUndefinedStyles (objLiteral
          ([ ("display", .str "grid"),
             ("gridTemplateColumns",
               .str ("repeat(" ++ (p.columns.orDefault (.num (.int 2))).toStr ++ ", 1fr)")),
             ("columnGap", pxIfNumber (p.columnGap.orDefault (.num (.int 0)))),
             ("rowGap", pxIfNumber (p.rowGap.orDefault (.num (.int 0)))),
             ("alignItems", p.alignment.orDefault (.str "start")),
             ("justifyItems", p.justifyItems.orDefault (.str "stretch")) ]
            ++ po ++ mo))) [.expr p.children]) := by
  obtain ⟨po, hpo⟩ := handleSpacing_ok_of_ne_null "padding" _
    (orDefault_ne_null p.padding (.num (.int 0)) hp (by simp))
  obtain ⟨mo, hmo⟩ := handleSpacing_ok_of_ne_null "margin" _
    (orDefault_ne_null p.margin (.num (.int 0)) hm (by simp))
  exact ⟨po, mo, hpo, hmo, by simp only [GridView, hpo, hmo, bind, Except.bind]⟩

/-! ## The switches against the tables -/

theorem lookup_eq_none_of_not_mem (s : String) (l : List (String × String))
    (h : s ∉ l.map Prod.fst) : l.lookup s = none := by
  induction l with
  | nil => rfl
  | cons hd tl ih =>
    obtain ⟨k, b⟩ := hd
    simp only [List.map_cons, List.mem_cons, not_or] at h
    have hb : (s == k) = false := beq_false_of_ne h.1
    simp only [List.lookup, hb]
    exact ih h.2

theorem specMainAxis_of_not_keyword (s : String) (h : s ∉ mainAxisTable.map Prod.fst) :
    specMainAxis (.str s) = "flex-start" := by
  simp only [specMainAxis, lookup_eq_none_of_not_mem s _ h, Option.getD_none]

theorem specCrossAxis_of_not_keyword (omitted s : String)
    (h : s ∉ crossAxisTable.map Prod.fst) : specCrossAxis omitted (.str s) = omitted := by
  simp only [specCrossAxis, lookup_eq_none_of_not_mem s _ h, Option.getD_none]


theorem Row_justifyContent_spec (v : JSValue) :
    Row.justifyContent (v.orDefault (.str "start")) = specMainAxis v := by
  cases v with
  | str s =>
    simp only [JSValue.orDefault]
    by_cases h : s ∈ mainAxisTable.map Prod.fst
    · simp only [mainAxisTable, List.map_cons, List.map_nil, List.mem_cons, List.mem_singleton,
        List.not_mem_nil, or_false] at h
      rcases h with rfl | rfl | rfl | rfl | rfl | rfl <;> rfl
    · rw [specMainAxis_of_not_keyword s h]
      simp only [mainAxisTable, List.map_cons, List.map_nil, List.mem_cons, List.mem_singleton,
        List.not_mem_nil, or_false, not_or] at h
      unfold Row.justifyContent
      split <;> simp_all
  | _ => rfl

theorem Column_justifyContent_spec (v : JSValue) :
    Column.justifyContent (v.orDefault (.str "start")) = specMainAxis v := by
  cases v with
  | str s =>
    simp only [JSValue.orDefault]
    by_cases h : s ∈ mainAxisTable.map Prod.fst
    · simp only [mainAxisTable, List.map_cons, List.map_nil, List.mem_cons, List.mem_singleton,
        List.not_mem_nil, or_false] at h
      rcases h with rfl | rfl | rfl | rfl | rfl | rfl <;> rfl
    · rw [specMainAxis_of_not_keyword s h]
      simp only [mainAxisTable, List.map_cons, List.map_nil, List.mem_cons, List.mem_singleton,
        List.not_mem_nil, or_false, not_or] at h
      unfold Column.justifyContent
      split <;> simp_all
  | _ => rfl

theorem ListView_justifyContent_spec (v : JSValue) :
    ListView.justifyContent (v.orDefault (.str "start")) = specMainAxis v := by
  cases v with
  | str s =>
    simp only [JSValue.orDefault]
    by_cases h : s ∈ mainAxisTable.map Prod.fst
    · simp only [mainAxisTable, List.map_cons, List.map_nil, List.mem_cons, List.mem_singleton,
        List.not_mem_nil, or_false] at h
      rcases h with rfl | rfl | rfl | rfl | rfl | rfl <;> rfl
    · rw [specMainAxis_of_not_keyword s h]
      simp only [mainAxisTable, List.map_cons, List.map_nil, List.mem_cons, List.mem_singleton,
        List.not_mem_nil, or_false, not_or] at h
      unfold ListView.justifyContent
      split <;> simp_all
  | _ => rfl

theorem Wrap_justifyContent_spec (v : JSValue) :
    Wrap.justifyContent (v.orDefault (.str "start")) = specMainAxis v := by
  cases v with
  | str s =>
    simp only [JSValue.orDefault]
    by_cases h : s ∈ mainAxisTable.map Prod.fst
    · simp only [mainAxisTable, List.map_cons, List.map_nil, List.mem_cons, List.mem_singleton,
        List.not_mem_nil, or_false] at h
      rcases h with rfl | rfl | rfl | rfl | rfl | rfl <;> rfl
    · rw [specMainAxis_of_not_keyword s h]
      simp only [mainAxisTable, List.map_cons, List.map_nil, List.mem_cons, List.mem_singleton,
        List.not_mem_nil, or_false, not_or] at h
      unfold Wrap.justifyContent
      split <;> simp_all
  | _ => rfl

theorem Wrap_alignContent_spec (v : JSValue) :
    Wrap.alignContent (v.orDefault (.str "start")) = specMainAxis v := by
  cases v with
  | str s =>
    simp only [JSValue.orDefault]
    by_cases h : s ∈ mainAxisTable.map Prod.fst
    · simp only [mainAxisTable, List.map_cons, List.map_nil, List.mem_cons, List.mem_singleton,
        List.not_mem_nil, or_false] at h
      rcases h with rfl | rfl | rfl | rfl | rfl | rfl <;> rfl
    · rw [specMainAxis_of_not_keyword s h]
      simp only [mainAxisTable, List.map_cons, List.map_nil, List.mem_cons, List.mem_singleton,
        List.not_mem_nil, or_false, not_or] at h
      unfold Wrap.alignContent
      split <;> simp_all
  | _ => rfl

theorem Row_alignItems_spec (v : JSValue) :
    Row.alignItems (v.orDefault (.str "stretch")) = specCrossAxis "stretch" v := by
  cases v with
  | str s =>
    simp only [JSValue.orDefault]
    by_cases h : s ∈ crossAxisTable.map Prod.fst
    · simp only [crossAxisTable, List.map_cons, List.map_nil, List.mem_cons, List.mem_singleton,
        List.not_mem_nil, or_false] at h
      rcases h with rfl | rfl | rfl | rfl | rfl <;> rfl
    · rw [specCrossAxis_of_not_keyword _ s h]
      simp only [crossAxisTable, List.map_cons, List.map_nil, List.mem_cons, List.mem_singleton,
        List.not_mem_nil, or_false, not_or] at h
      unfold Row.alignItems
      split <;> simp_all
  | _ => rfl

theorem Column_alignItems_spec (v : JSValue) :
    Column.alignItems (v.orDefault (.str "stretch")) = specCrossAxis "stretch" v := by
  cases v with
  | str s =>
    simp only [JSValue.orDefault]
    by_cases h : s ∈ crossAxisTable.map Prod.fst
    · simp only [crossAxisTable, List.map_cons, List.map_nil, List.mem_cons, List.mem_singleton,
        List.not_mem_nil, or_false] at h
      rcases h with rfl | rfl | rfl | rfl | rfl <;> rfl
    · rw [specCrossAxis_of_not_keyword _ s h]
      simp only [crossAxisTable, List.map_cons, List.map_nil, List.mem_cons, List.mem_singleton,
        List.not_mem_nil, or_false, not_or] at h
      unfold Column.alignItems
      split <;> simp_all
  | _ => rfl

theorem ListView_alignItems_spec (v : JSValue) :
    ListView.alignItems (v.orDefault (.str "stretch")) = specCrossAxis "stretch" v := by
  cases v with
  | str s =>
    simp only [JSValue.orDefault]
    by_cases h : s ∈ crossAxisTable.map Prod.fst
    · simp only [crossAxisTable, List.map_cons, List.map_nil, List.mem_cons, List.mem_singleton,
        List.not_mem_nil, or_false] at h
      rcases h with rfl | rfl | rfl | rfl | rfl <;> rfl
    · rw [specCrossAxis_of_not_keyword _ s h]
      simp only [crossAxisTable, List.map_cons, List.map_nil, List.mem_cons, List.mem_singleton,
        List.not_mem_nil, or_false, not_or] at h
      unfold ListView.alignItems
      split <;> simp_all
  | _ => rfl

theorem Wrap_alignItems_spec (v : JSValue) :
    Wrap.alignItems (v.orDefault (.str "start")) = specCrossAxis "flex-start" v := by
  cases v with
  | str s =>
    simp only [JSValue.orDefault]
    by_cases h : s ∈ crossAxisTable.map Prod.fst
    · simp only [crossAxisTable, List.map_cons, List.map_nil, List.mem_cons, List.mem_singleton,
        List.not_mem_nil, or_false] at h
      rcases h with rfl | rfl | rfl | rfl | rfl <;> rfl
    · rw [specCrossAxis_of_not_keyword _ s h]
      simp only [crossAxisTable, List.map_cons, List.map_nil, List.mem_cons, List.mem_singleton,
        List.not_mem_nil, or_false, not_or] at h
      unfold Wrap.alignItems
      split <;> simp_all
  | _ => rfl

/-! ## The style utilities and the alignment mappings -/

/-- C1: `handleSize` renders a number as its decimal text followed by `px`, returns a string
unchanged, and so gives a string for every number and every string. -/
theorem handleSize_number_px_string_same :
    (∀ n : JSNum, handleSize (.num n) = .str (n.toStr ++ "px"))
    ∧ (∀ s : String, handleSize (.str s) = .str s)
    ∧ (∀ n : JSNum, (handleSize (.num n)).typeof = "string")
    ∧ (∀ s : String, (handleSize (.str s)).typeof = "string") :=
  ⟨fun _ => rfl, fun _ => rfl, fun _ => rfl, fun _ => rfl⟩

/-- C3: with a scalar spacing `handleSpacing` returns the object with the single key
`prefix`, valued with the number followed by `px` (zero included) or with the string
unchanged. -/
theorem handleSpacing_scalar_single_key (pfx : String) :
    (∀ n : JSNum, handleSpacing pfx (.num n) = .ok [(pfx, .str (n.toStr ++ "px"))])
    ∧ (∀ s : String, handleSpacing pfx (.str s) = .ok [(pfx, .str s)])
    ∧ handleSpacing pfx (.num (.int 0)) = .ok [(pfx, .str "0px")] :=
  ⟨fun _ => rfl, fun _ => rfl, rfl⟩

/-- C4: `removeUndefinedStyles` keeps exactly the entries whose value is not `undefined`,
with their values and in their order; no value of the result is `undefined`, and entries
valued `null`, `0` or the empty string stay. -/
theorem removeUndefinedStyles_keeps_defined (o : JSObject) (h : (objKeys o).Nodup) :
    removeUndefinedStyles o = o.filter (fun kv => !kv.2.isUndefined)
    ∧ (removeUndefinedStyles o).Sublist o
    ∧ (∀ e, e ∈ removeUndefinedStyles o ↔ e ∈ o ∧ e.2 ≠ .undefined)
    ∧ (∀ k, (k, JSValue.null) ∈ o → (k, JSValue.null) ∈ removeUndefinedStyles o)
    ∧ (∀ k, (k, JSValue.num (.int 0)) ∈ o → (k, JSValue.num (.int 0)) ∈ removeUndefinedStyles o)
    ∧ (∀ k, (k, JSValue.str "") ∈ o → (k, JSValue.str "") ∈ removeUndefinedStyles o) := by
  have hf := removeUndefinedStyles_eq_filter o h
  have hmem : ∀ e, e ∈ removeUndefinedStyles o ↔ e ∈ o ∧ e.2 ≠ .undefined := by
    intro e
    rw [hf, List.mem_filter]
    constructor
    · rintro ⟨h1, h2⟩
      refine ⟨h1, fun hu => ?_⟩
      rw [(isUndefined_iff e.2).mpr hu] at h2
      exact absurd h2 (by decide)
    · rintro ⟨h1, h2⟩
      refine ⟨h1, ?_⟩
      cases hv : e.2.isUndefined
      · rfl
      · exact absurd ((isUndefined_iff e.2).mp hv) h2
  refine ⟨hf, ?_, hmem, ?_, ?_, ?_⟩
  · rw [hf]; exact List.filter_sublist o
  · intro k hk; exact (hmem _).mpr ⟨hk, by simp⟩
  · intro k hk; exact (hmem _).mpr ⟨hk, by simp⟩
  · intro k hk; exact (hmem _).mpr ⟨hk, by simp⟩

/-- C4, at an object with an `undefined`, a `null`, a zero and an empty-string value. -/
theorem removeUndefinedStyles_keeps_defined_witness :
    (objKeys [("a", JSValue.undefined), ("b", .null), ("c", .num (.int 0)), ("d", .str "")]).Nodup
    ∧ removeUndefinedStyles
        [("a", JSValue.undefined), ("b", .null), ("c", .num (.int 0)), ("d", .str "")]
      = [("b", .null), ("c", .num (.int 0)), ("d", .str "")] :=
  ⟨by decide,
   (removeUndefinedStyles_keeps_defined
      [("a", JSValue.undefined), ("b", .null), ("c", .num (.int 0)), ("d", .str "")]
      (by decide)).1.trans rfl⟩

theorem spacingSide_of_truthy (v : JSValue) (ht : v.truthy = true)
    (hn : v.typeof = "number" ∨ v.typeof = "string") :
    spacingSide v = pxIfNumber v ∧ (spacingSide v).isUndefined = false := by
  cases v <;> simp_all [spacingSide, pxIfNumber, JSValue.typeof, JSValue.isUndefined]

theorem nodup_spacing_sides (pfx : String) :
    (objKeys
      [ (pfx ++ "Top", (JSValue.undefined)), (pfx ++ "Bottom", .undefined),
        (pfx ++ "Left", .undefined), (pfx ++ "Right", .undefined),
        (pfx ++ "Inline", .undefined), (pfx ++ "Block", .undefined) ]).Nodup := by
  have key : ∀ a b : String, a ≠ b → pfx ++ a ≠ pfx ++ b :=
    fun a b hab h => hab (string_append_left_cancel pfx a b h)
  simp only [objKeys, List.map_cons, List.map_nil, List.nodup_cons, List.mem_cons,
    List.mem_singleton, List.not_mem_nil, not_or, not_false_eq_true, List.nodup_nil, and_true]
  refine ⟨⟨?_, ?_, ?_, ?_, ?_⟩, ⟨?_, ?_, ?_, ?_⟩, ⟨?_, ?_, ?_⟩, ⟨?_, ?_⟩, ?_⟩ <;>
    exact key _ _ (by decide)

/-- The object branch of `handleSpacing` when only `t` and `l` are set, both truthy: the
cleaned result has exactly the Top and Left keys. -/
theorem handleSpacing_top_left_of_truthy (pfx : String) (props : JSObject) (t l : JSValue)
    (ht : objGet props "t" = t) (hl : objGet props "l" = l)
    (hb : objGet props "b" = .undefined) (hr : objGet props "r" = .undefined)
    (hx : objGet props "x" = .undefined) (hy : objGet props "y" = .undefined)
    (htt : t.truthy = true) (hlt : l.truthy = true)
    (htn : t.typeof = "number" ∨ t.typeof = "string")
    (hln : l.typeof = "number" ∨ l.typeof = "string") :
    (handleSpacing pfx (.obj props)).map removeUndefinedStyles
      = .ok [(pfx ++ "Top", pxIfNumber t), (pfx ++ "Left", pxIfNumber l)] := by
  have hnd := nodup_spacing_sides pfx
  have h1 : handleSpacing pfx (.obj props) = .ok (objLiteral
      [ (pfx ++ "Top", spacingSide t), (pfx ++ "Bottom", spacingSide .undefined),
        (pfx ++ "Left", spacingSide l), (pfx ++ "Right", spacingSide .undefined),
        (pfx ++ "Inline", spacingSide .undefined), (pfx ++ "Block", spacingSide .undefined) ]) := by
    simp only [handleSpacing, JSValue.typeof, JSValue.getProp, bind, Except.bind, ht, hl, hb, hr,
      hx, hy]
    rfl
  rw [h1, objLiteral_of_nodup _ (by simpa [objKeys] using hnd)]
  obtain ⟨et, ut⟩ := spacingSide_of_truthy t htt htn
  obtain ⟨el, ul⟩ := spacingSide_of_truthy l hlt hln
  have hu : (spacingSide .undefined).isUndefined = true := rfl
  simp only [Except.map, removeUndefinedStyles, List.filter, ut, ul, hu, Bool.not_true,
    Bool.not_false]
  rw [objLiteral_of_nodup, et, el]
  simp only [objKeys, List.map_cons, List.map_nil, List.nodup_cons, List.mem_singleton,
    List.not_mem_nil, not_false_eq_true, List.nodup_nil, and_true]
  exact fun h => absurd (string_append_left_cancel pfx _ _ h) (by decide)

/-- C2: at the spacing object `t: 0, l: 8` the zero top is dropped: the cleaned result has
the single key `paddingLeft`, where the scalar branch renders the same zero as `0px`. -/
theorem handleSpacing_zero_side_dropped :
    (handleSpacing "padding" (.obj [("t", .num (.int 0)), ("l", .num (.int 8))])).map
        removeUndefinedStyles
      = .ok [("paddingLeft", .str "8px")]
    ∧ handleSpacing "padding" (.num (.int 0)) = .ok [("padding", .str "0px")] :=
  ⟨rfl, rfl⟩

/-- C5: in the svg branch of `Icon` a style prop with an `undefined`-valued key reaches the
renderer with that key, where the font branch on the same props removes it. -/
theorem Icon_svg_style_keeps_undefined :
    (Icon { iconLibrary := .str "svg", iconData := .str "",
            style := some [("opacity", .undefined)] }).map Markup.styleOf
      = some [("fontSize", .str "24px"), ("color", .str "#000"), ("opacity", .undefined),
              ("fill", .str "#000")]
    ∧ (Icon { iconLibrary := .str "font", iconData := .str "",
              style := some [("opacity", .undefined)] }).map Markup.styleOf
      = some [("fontSize", .str "24px"), ("color", .str "#000")] :=
  ⟨rfl, rfl⟩

/-- C6: for each of the nine alignment keywords `Align` sets `justifyContent` from the
horizontal part and `alignItems` from the vertical part, with display `flex` and width and
height `100%`; an omitted alignment renders as `center` does, centered on both axes. -/
theorem Align_style_of_keyword (child : JSValue) :
    (∀ (v : VerticalPart) (h : HorizontalPart),
      (Align { alignment := .str (alignmentKeyword v h), child := child }).styleOf
        = [ ("display", .str "flex"), ("justifyContent", .str h.flex),
            ("alignItems", .str v.flex), ("width", .str "100%"), ("height", .str "100%") ])
    ∧ (Align { alignment := .str "center", child := child }).styleOf
        = [ ("display", .str "flex"), ("justifyContent", .str "center"),
            ("alignItems", .str "center"), ("width", .str "100%"), ("height", .str "100%") ]
    ∧ (Align { child := child }).styleOf
        = [ ("display", .str "flex"), ("justifyContent", .str "center"),
            ("alignItems", .str "center"), ("width", .str "100%"), ("height", .str "100%") ] := by
  refine ⟨?_, rfl, rfl⟩
  intro v h
  cases v <;> cases h <;> rfl

/-- C7: wherever `Row`, `Column`, `ListView` and `Wrap` render (padding and margin not
`null`), `justifyContent` (and `alignContent` of `Wrap`, from `runAlignment`) is the
main-axis table entry of the prop; every string outside the table gives `flex-start`, the
value of the omitted prop, and the component renders. -/
theorem main_axis_mapping (r : RowProps) (c : ColumnProps) (l : ListViewProps) (w : WrapProps)
    (hr1 : r.padding ≠ .null) (hr2 : r.margin ≠ .null)
    (hc1 : c.padding ≠ .null) (hc2 : c.margin ≠ .null)
    (hl1 : l.padding ≠ .null) (hl2 : l.margin ≠ .null)
    (hw1 : w.padding ≠ .null) (hw2 : w.margin ≠ .null) :
    (∃ el, Row r = .ok el
      ∧ objGet el.styleOf "justifyContent" = .str (specMainAxis r.mainAxisAlignment))
    ∧ (∃ el, Column c = .ok el
      ∧ objGet el.styleOf "justifyContent" = .str (specMainAxis c.mainAxisAlignment))
    ∧ (∃ el, ListView l = .ok el
      ∧ objGet el.styleOf "justifyContent" = .str (specMainAxis l.alignment))
    ∧ (∃ el, Wrap w = .ok el
      ∧ objGet el.styleOf "justifyContent" = .str (specMainAxis w.alignment)
      ∧ objGet el.styleOf "alignContent" = .str (specMainAxis w.runAlignment))
    ∧ (∀ s : String, s ∉ mainAxisTable.map Prod.fst →
        specMainAxis (.str s) = "flex-start" ∧ specMainAxis .undefined = "flex-start") := by
  refine ⟨?_, ?_, ?_, ?_, fun s hs => ⟨specMainAxis_of_not_keyword s hs, rfl⟩⟩
  · obtain ⟨po, mo, hpo, hmo, hrender⟩ := Row_render r hr1 hr2
    refine ⟨_, hrender, ?_⟩
    simp only [Markup.styleOf, objGet_removeUndefinedStyles_objLiteral, List.reverse_append,
    List.reverse_cons, List.reverse_nil, List.nil_append, List.cons_append, List.append_assoc]
    simp only [objGet]
    rw [if_neg (by decide), objGet_skip_spacing _ _ _ _ _ hmo (by decide),
      objGet_skip_spacing _ _ _ _ _ hpo (by decide)]
    simp [objGet, Row_justifyContent_spec]
  · obtain ⟨po, mo, hpo, hmo, hrender⟩ := Column_render c hc1 hc2
    refine ⟨_, hrender, ?_⟩
    simp only [Markup.styleOf, objGet_removeUndefinedStyles_objLiteral, List.reverse_append,
    List.reverse_cons, List.reverse_nil, List.nil_append, List.cons_append, List.append_assoc]
    simp only [objGet]
    rw [if_neg (by decide), objGet_skip_spacing _ _ _ _ _ hmo (by decide),
      objGet_skip_spacing _ _ _ _ _ hpo (by decide)]
    simp [objGet, Column_justifyContent_spec]
  · obtain ⟨po, mo, hpo, hmo, hrender⟩ := ListView_render l hl1 hl2
    refine ⟨_, hrender, ?_⟩
    simp only [Markup.styleOf, objGet_removeUndefinedStyles_objLiteral, List.reverse_append,
    List.reverse_cons, List.reverse_nil, List.nil_append, List.cons_append, List.append_assoc]
    rw [objGet_skip_spacing _ _ _ _ _ hmo (by decide),
      objGet_skip_spacing _ _ _ _ _ hpo (by decide)]
    simp [objGet, ListView_justifyContent_spec]
  · obtain ⟨po, mo, hpo, hmo, hrender⟩ := Wrap_render w hw1 hw2
    refine ⟨_, hrender, ?_, ?_⟩
    · simp only [Markup.styleOf, objGet_removeUndefinedStyles_objLiteral, List.reverse_append,
    List.reverse_cons, List.reverse_nil, List.nil_append, List.cons_append, List.append_assoc]
      rw [objGet_skip_spacing _ _ _ _ _ hmo (by decide),
        objGet_skip_spacing _ _ _ _ _ hpo (by decide)]
      simp [objGet, Wrap_justifyContent_spec]
    · simp only [Markup.styleOf, objGet_removeUndefinedStyles_objLiteral, List.reverse_append,
    List.reverse_cons, List.reverse_nil, List.nil_append, List.cons_append, List.append_assoc]
      rw [objGet_skip_spacing _ _ _ _ _ hmo (by decide),
        objGet_skip_spacing _ _ _ _ _ hpo (by decide)]
      simp [objGet, Wrap_alignContent_spec]

/-- C7, at a keyword (`Row`), a string outside the table (`Column`), an omitted prop
(`ListView`) and two keywords of `Wrap`. -/
theorem main_axis_mapping_witness :
    (∃ el, Row { mainAxisAlignment := .str "spaceBetween" } = .ok el
      ∧ objGet el.styleOf "justifyContent" = .str "space-between")
    ∧ (∃ el, Column { mainAxisAlignment := .str "middle" } = .ok el
      ∧ objGet el.styleOf "justifyContent" = .str "flex-start")
    ∧ (∃ el, ListView {} = .ok el
      ∧ objGet el.styleOf "justifyContent" = .str "flex-start")
    ∧ (∃ el, Wrap { alignment := .str "end", runAlignment := .str "spaceAround" } = .ok el
      ∧ objGet el.styleOf "justifyContent" = .str "flex-end"
      ∧ objGet el.styleOf "alignContent" = .str "space-around") :=
  have h := main_axis_mapping { mainAxisAlignment := .str "spaceBetween" }
    { mainAxisAlignment := .str "middle" } {}
    { alignment := .str "end", runAlignment := .str "spaceAround" }
    (by simp) (by simp) (by simp) (by simp) (by simp) (by simp) (by simp) (by simp)
  ⟨h.1, h.2.1, h.2.2.1, h.2.2.2.1⟩

/-- C8: wherever `Row`, `Column`, `ListView` and `Wrap` render (padding and margin not
`null`), `alignItems` is the cross-axis table entry of `crossAxisAlignment`; every string
outside the table gives the value of the omitted prop, `stretch` for `Row`, `Column` and
`ListView` and `flex-start` for `Wrap`. -/
theorem cross_axis_mapping (r : RowProps) (c : ColumnProps) (l : ListViewProps) (w : WrapProps)
    (hr1 : r.padding ≠ .null) (hr2 : r.margin ≠ .null)
    (hc1 : c.padding ≠ .null) (hc2 : c.margin ≠ .null)
    (hl1 : l.padding ≠ .null) (hl2 : l.margin ≠ .null)
    (hw1 : w.padding ≠ .null) (hw2 : w.margin ≠ .null) :
    (∃ el, Row r = .ok el
      ∧ objGet el.styleOf "alignItems" = .str (specCrossAxis "stretch" r.crossAxisAlignment))
    ∧ (∃ el, Column c = .ok el
      ∧ objGet el.styleOf "alignItems" = .str (specCrossAxis "stretch" c.crossAxisAlignment))
    ∧ (∃ el, ListView l = .ok el
      ∧ objGet el.styleOf "alignItems" = .str (specCrossAxis "stretch" l.crossAxisAlignment))
    ∧ (∃ el, Wrap w = .ok el
      ∧ objGet el.styleOf "alignItems"
          = .str (specCrossAxis "flex-start" w.crossAxisAlignment))
    ∧ (∀ omitted s : String, s ∉ crossAxisTable.map Prod.fst →
        specCrossAxis omitted (.str s) = omitted
        ∧ specCrossAxis omitted .undefined = omitted) := by
  refine ⟨?_, ?_, ?_, ?_, fun o s hs => ⟨specCrossAxis_of_not_keyword o s hs, rfl⟩⟩
  · obtain ⟨po, mo, hpo, hmo, hrender⟩ := Row_render r hr1 hr2
    refine ⟨_, hrender, ?_⟩
    simp only [Markup.styleOf, objGet_removeUndefinedStyles_objLiteral, List.reverse_append,
    List.reverse_cons, List.reverse_nil, List.nil_append, List.cons_append, List.append_assoc]
    simp only [objGet]
    rw [if_neg (by decide), objGet_skip_spacing _ _ _ _ _ hmo (by decide),
      objGet_skip_spacing _ _ _ _ _ hpo (by decide)]
    simp [objGet, Row_alignItems_spec]
  · obtain ⟨po, mo, hpo, hmo, hrender⟩ := Column_render c hc1 hc2
    refine ⟨_, hrender, ?_⟩
    simp only [Markup.styleOf, objGet_removeUndefinedStyles_objLiteral, List.reverse_append,
    List.reverse_cons, List.reverse_nil, List.nil_append, List.cons_append, List.append_assoc]
    simp only [objGet]
    rw [if_neg (by decide), objGet_skip_spacing _ _ _ _ _ hmo (by decide),
      objGet_skip_spacing _ _ _ _ _ hpo (by decide)]
    simp [objGet, Column_alignItems_spec]
  · obtain ⟨po, mo, hpo, hmo, hrender⟩ := ListView_render l hl1 hl2
    refine ⟨_, hrender, ?_⟩
    simp only [Markup.styleOf, objGet_removeUndefinedStyles_objLiteral, List.reverse_append,
    List.reverse_cons, List.reverse_nil, List.nil_append, List.cons_append, List.append_assoc]
    rw [objGet_skip_spacing _ _ _ _ _ hmo (by decide),
      objGet_skip_spacing _ _ _ _ _ hpo (by decide)]
    simp [objGet, ListView_alignItems_spec]
  · obtain ⟨po, mo, hpo, hmo, hrender⟩ := Wrap_render w hw1 hw2
    refine ⟨_, hrender, ?_⟩
    simp only [Markup.styleOf, objGet_removeUndefinedStyles_objLiteral, List.reverse_append,
    List.reverse_cons, List.reverse_nil, List.nil_append, List.cons_append, List.append_assoc]
    rw [objGet_skip_spacing _ _ _ _ _ hmo (by decide),
      objGet_skip_spacing _ _ _ _ _ hpo (by decide)]
    simp [objGet, Wrap_alignItems_spec]

/-- C8, at a keyword (`Row`), strings outside the table (`Column`, `Wrap`) and an omitted
prop (`ListView`). -/
theorem cross_axis_mapping_witness :
    (∃ el, Row { crossAxisAlignment := .str "baseline" } = .ok el
      ∧ objGet el.styleOf "alignItems" = .str "baseline")
    ∧ (∃ el, Column { crossAxisAlignment := .str "middle" } = .ok el
      ∧ objGet el.styleOf "alignItems" = .str "stretch")
    ∧ (∃ el, ListView {} = .ok el
      ∧ objGet el.styleOf "alignItems" = .str "stretch")
    ∧ (∃ el, Wrap { crossAxisAlignment := .str "middle" } = .ok el
      ∧ objGet el.styleOf "alignItems" = .str "flex-start") :=
  have h := cross_axis_mapping { crossAxisAlignment := .str "baseline" }
    { crossAxisAlignment := .str "middle" } {} { crossAxisAlignment := .str "middle" }
    (by simp) (by simp) (by simp) (by simp) (by simp) (by simp) (by simp) (by simp)
  ⟨h.1, h.2.1, h.2.2.1, h.2.2.2.1⟩

set_option maxHeartbeats 4000000 in
/-- The final branch of the `switch` of `Container` centers on both axes, where the default
of the `alignment` parameter, `topLeft`, takes the first branch. -/
theorem Container_alignmentSwitch_fallback (s : String) (h : s ∉ alignmentKeywords) :
    Container.alignmentSwitch (.str s) = ("center", "center")
    ∧ Container.alignmentSwitch (JSValue.undefined.orDefault (.str "topLeft"))
        = ("flex-start", "flex-start") := by
  refine ⟨?_, rfl⟩
  simp only [alignmentKeywords, List.mem_cons, List.mem_singleton, List.not_mem_nil, or_false,
    not_or] at h
  unfold Container.alignmentSwitch
  split
  all_goals first
    | rfl
    | (rename_i heq
       cases heq
       simp at h)

/-- C9: `Container` with the alignment `middle`, which is none of the nine keywords, is
centered on both axes, and with the alignment omitted it is at `flex-start` on both: the two
renderings differ. -/
theorem Container_unknown_alignment_not_as_omitted :
    (Container { alignment := .str "middle" }).map
        (fun el => (objGet el.styleOf "justifyContent", objGet el.styleOf "alignItems"))
      = .ok (.str "center", .str "center")
    ∧ (Container {}).map
        (fun el => (objGet el.styleOf "justifyContent", objGet el.styleOf "alignItems"))
      = .ok (.str "flex-start", .str "flex-start")
    ∧ "middle" ∉ alignmentKeywords :=
  ⟨rfl, rfl, by decide⟩

/-- C10, as stated, fails: `GridView` with the alignment and justifyItems `diagonal` has
`alignItems` and `justifyItems` equal to `diagonal`, not to the defaults `start` and
`stretch`. -/
theorem GridView_unknown_alignment_not_default :
    (GridView { alignment := .str "diagonal", justifyItems := .str "diagonal" }).map
        (fun el => (objGet el.styleOf "alignItems", objGet el.styleOf "justifyItems"))
      = .ok (.str "diagonal", .str "diagonal")
    ∧ (GridView { alignment := .str "diagonal", justifyItems := .str "diagonal" }).map
        (fun el => (objGet el.styleOf "alignItems", objGet el.styleOf "justifyItems"))
      ≠ .ok (.str "start", .str "stretch") := by
  have h : (GridView { alignment := .str "diagonal", justifyItems := .str "diagonal" }).map
        (fun el => (objGet el.styleOf "alignItems", objGet el.styleOf "justifyItems"))
      = .ok (.str "diagonal", .str "diagonal") := rfl
  refine ⟨h, ?_⟩
  rw [h]
  simp

/-- C10, amended: wherever `GridView` renders (padding and margin not `null`), `alignItems`
is the alignment value and `justifyItems` the justifyItems value, passed through unchanged
whatever they are; the defaults `start` and `stretch` stand in for an omitted prop only. -/
theorem GridView_alignment_passed_through (p : GridViewProps)
    (hp : p.padding ≠ .null) (hm : p.margin ≠ .null) :
    ∃ el, GridView p = .ok el
      ∧ objGet el.styleOf "alignItems" = p.alignment.orDefault (.str "start")
      ∧ objGet el.styleOf "justifyItems" = p.justifyItems.orDefault (.str "stretch") := by
  obtain ⟨po, mo, hpo, hmo, hrender⟩ := GridView_render p hp hm
  refine ⟨_, hrender, ?_, ?_⟩
  · simp only [Markup.styleOf, objGet_removeUndefinedStyles_objLiteral, List.reverse_append,
    List.reverse_cons, List.reverse_nil, List.nil_append, List.cons_append, List.append_assoc]
    rw [objGet_skip_spacing _ _ _ _ _ hmo (by decide),
      objGet_skip_spacing _ _ _ _ _ hpo (by decide)]
    simp [objGet]
  · simp only [Markup.styleOf, objGet_removeUndefinedStyles_objLiteral, List.reverse_append,
    List.reverse_cons, List.reverse_nil, List.nil_append, List.cons_append, List.append_assoc]
    rw [objGet_skip_spacing _ _ _ _ _ hmo (by decide),
      objGet_skip_spacing _ _ _ _ _ hpo (by decide)]
    simp [objGet]

/-- C10, amended, at an alignment outside the documented options with justifyItems
omitted. -/
theorem GridView_alignment_passed_through_witness :
    ∃ el, GridView { alignment := .str "diagonal" } = .ok el
      ∧ objGet el.styleOf "alignItems" = .str "diagonal"
      ∧ objGet el.styleOf "justifyItems" = .str "stretch" :=
  GridView_alignment_passed_through { alignment := .str "diagonal" } (by simp) (by simp)

/-! ## Defaults against the docstrings -/

/-- C11: with width and height omitted `Container` renders width and height `auto`, and so
does `AnimatedContainer` on its first render and after its effect; the docstrings give
`100%`. -/
theorem Container_default_size_is_auto :
    (Container {}).map (fun el => (objGet el.styleOf "width", objGet el.styleOf "height"))
      = .ok (.str "auto", .str "auto")
    ∧ (AnimatedContainer {}).map
        (fun el => (objGet el.styleOf "width", objGet el.styleOf "height"))
      = .ok (.str "auto", .str "auto")
    ∧ (AnimatedContainer.afterEffect {}).map
        (fun el => (objGet el.styleOf "width", objGet el.styleOf "height"))
      = .ok (.str "auto", .str "auto") :=
  ⟨rfl, rfl, rfl⟩

/-- C12: with the alignment omitted `Container` renders `flex-start` on both axes, and
`AnimatedContainer` renders justifyContent `flex-start` with alignItems `flex-end`, on its
first render and after its effect; the docstrings give `center`. -/
theorem Container_default_alignment_not_center :
    (Container {}).map
        (fun el => (objGet el.styleOf "justifyContent", objGet el.styleOf "alignItems"))
      = .ok (.str "flex-start", .str "flex-start")
    ∧ (AnimatedContainer {}).map
        (fun el => (objGet el.styleOf "justifyContent", objGet el.styleOf "alignItems"))
      = .ok (.str "flex-start", .str "flex-end")
    ∧ (AnimatedContainer.afterEffect {}).map
        (fun el => (objGet el.styleOf "justifyContent", objGet el.styleOf "alignItems"))
      = .ok (.str "flex-start", .str "flex-end") :=
  ⟨rfl, rfl, rfl⟩

/-- C13: the decoration holding only the border color `red` renders the border with the
width `undefined` and has no backgroundColor, borderRadius, boxShadow or background entry;
the decoration holding only the boxShadow color `red` makes `Container` throw. -/
theorem Container_partial_decoration_no_defaults :
    (Container { decoration := .obj [("border", .obj [("color", .str "red")])] }).map
        Markup.styleOf
      = .ok [ ("width", .str "auto"), ("height", .str "auto"), ("margin", .str "0px"),
              ("padding", .str "0px"), ("display", .str "flex"),
              ("justifyContent", .str "flex-start"), ("alignItems", .str "flex-start"),
              ("border", .str "undefined solid red"), ("overflow", .str "hidden") ]
    ∧ Container { decoration := .obj [("boxShadow", .obj [("color", .str "red")])] }
      = .error .typeError :=
  ⟨rfl, rfl⟩

/-- C17: the gradient holding only the colors `red` and `blue` renders the direction as
`undefined`, and the gradient holding only the direction `to left` makes `Text` throw. -/
theorem Text_partial_gradient_no_defaults :
    (Text { style := .obj [("gradient", .obj [("colors", .arr [.str "red", .str "blue"])])]
          }).map (fun el => objGet el.styleOf "background")
      = .ok (.str "linear-gradient(undefined, red, blue)")
    ∧ Text { style := .obj [("gradient", .obj [("direction", .str "to left")])] }
      = .error .typeError :=
  ⟨rfl, rfl⟩

/-- C18: for the direction `vertical` (also the omitted direction) `ListView` has
flexDirection `column` and overflow `auto hidden`, which puts `auto` on the x axis and
`hidden` on the y axis; for `horizontal` it has `row` and `hidden auto`, with `auto` on the
y axis. -/
theorem ListView_overflow_across_direction :
    (ListView { direction := .str "vertical" }).map
        (fun el => (objGet el.styleOf "flexDirection", objGet el.styleOf "overflow"))
      = .ok (.str "column", .str "auto hidden")
    ∧ (ListView {}).map
        (fun el => (objGet el.styleOf "flexDirection", objGet el.styleOf "overflow"))
      = .ok (.str "column", .str "auto hidden")
    ∧ (ListView { direction := .str "horizontal" }).map
        (fun el => (objGet el.styleOf "flexDirection", objGet el.styleOf "overflow"))
      = .ok (.str "row", .str "hidden auto")
    ∧ overflowAxes "auto hidden" = ("auto", "hidden")
    ∧ overflowAxes "hidden auto" = ("hidden", "auto") :=
  ⟨rfl, rfl, rfl, rfl, rfl⟩

/-! ## Key presence in a cleaned style -/

theorem objGet_of_mem_nodup (o : JSObject) (k : String) (v : JSValue)
    (h : (objKeys o).Nodup) (hm : (k, v) ∈ o) : objGet o k = v := by
  induction o with
  | nil => simp at hm
  | cons hd tl ih =>
    obtain ⟨k0, v0⟩ := hd
    simp only [objKeys, List.map_cons, List.nodup_cons] at h
    rcases List.mem_cons.mp hm with e | e
    · cases e; simp [objGet]
    · have hk : k0 ≠ k := by
        intro hk
        subst hk
        exact h.1 (List.mem_map.mpr ⟨(k0, v), e, rfl⟩)
      simp only [objGet, hk, if_false]
      exact ih h.2 e

/-- A key is in the cleaned object exactly when its value was not `undefined`. -/
theorem mem_objKeys_removeUndefinedStyles (o : JSObject) (k : String)
    (h : (objKeys o).Nodup) :
    k ∈ objKeys (removeUndefinedStyles o) ↔ objGet o k ≠ .undefined := by
  constructor
  · intro hk
    rw [removeUndefinedStyles_eq_filter o h] at hk
    simp only [objKeys, List.mem_map] at hk
    obtain ⟨e, he, hek⟩ := hk
    obtain ⟨he1, he2⟩ := List.mem_filter.mp he
    obtain ⟨k1, v1⟩ := e
    simp only at hek
    subst hek
    rw [objGet_of_mem_nodup o k1 v1 h he1]
    intro hu
    subst hu
    simp [JSValue.isUndefined] at he2
  · intro hne
    by_contra hk
    apply hne
    rw [← objGet_removeUndefinedStyles o k h]
    exact objGet_of_not_mem _ _ hk

theorem mem_objKeys_removeUndefinedStyles_objLiteral (l : List (String × JSValue))
    (k : String) :
    k ∈ objKeys (removeUndefinedStyles (objLiteral l)) ↔ objGet l.reverse k ≠ .undefined := by
  rw [mem_objKeys_removeUndefinedStyles _ _ (nodup_objKeys_objLiteral l), objGet_objLiteral]

theorem joinItems_map_str (cs : List String) :
    JSValue.joinItems (cs.map JSValue.str) = cs := by
  induction cs with
  | nil => rfl
  | cons c tl ih => simp [JSValue.joinItems, JSValue.toStr, ih]

theorem pxIfNumber_toJS (sz : SizeValue) : pxIfNumber sz.toJS = .str sz.css := by
  cases sz <;> rfl

theorem pxIfNumber_isUndefined (v : JSValue) :
    (pxIfNumber v).isUndefined = v.isUndefined := by
  cases v <;> rfl

/-! ## Sizes, directions and grids -/

theorem isStr_orDefault_max (v : JSValue) (h1 : v ≠ .str "max") (h2 : v ≠ .undefined) :
    (v.orDefault (.str "max")).isStr "max" = false := by
  cases v with
  | undefined => exact absurd rfl h2
  | str s =>
    have hs : s ≠ "max" := fun e => h1 (by rw [e])
    simp [JSValue.orDefault, JSValue.isStr, hs]
  | _ => rfl

/-- C15: wherever `Row` and `Column` render (padding and margin not `null`), whatever the
padding and margin are, flexDirection is `row` for `Row` and `column` for `Column`, and the
width of `Row` (the height of `Column`) is `100%` for mainAxisSize `max` and for the omitted
prop, and `auto` for every other value, `min` among them. -/
theorem Row_Column_main_axis_size (r : RowProps) (c : ColumnProps)
    (hr1 : r.padding ≠ .null) (hr2 : r.margin ≠ .null)
    (hc1 : c.padding ≠ .null) (hc2 : c.margin ≠ .null) :
    (∃ el, Row r = .ok el
      ∧ objGet el.styleOf "flexDirection" = .str "row"
      ∧ (r.mainAxisSize = .str "max" ∨ r.mainAxisSize = .undefined →
          objGet el.styleOf "width" = .str "100%")
      ∧ (r.mainAxisSize ≠ .str "max" → r.mainAxisSize ≠ .undefined →
          objGet el.styleOf "width" = .str "auto")
      ∧ (r.mainAxisSize = .str "min" → objGet el.styleOf "width" = .str "auto"))
    ∧ (∃ el, Column c = .ok el
      ∧ objGet el.styleOf "flexDirection" = .str "column"
      ∧ (c.mainAxisSize = .str "max" ∨ c.mainAxisSize = .undefined →
          objGet el.styleOf "height" = .str "100%")
      ∧ (c.mainAxisSize ≠ .str "max" → c.mainAxisSize ≠ .undefined →
          objGet el.styleOf "height" = .str "auto")
      ∧ (c.mainAxisSize = .str "min" → objGet el.styleOf "height" = .str "auto")) := by
  constructor
  · obtain ⟨po, mo, hpo, hmo, hrender⟩ := Row_render r hr1 hr2
    refine ⟨_, hrender, ?_, ?_, ?_, ?_⟩
    · simp only [Markup.styleOf, objGet_removeUndefinedStyles_objLiteral, List.reverse_append,
      List.reverse_cons, List.reverse_nil, List.nil_append, List.cons_append, List.append_assoc]
      simp only [objGet]
      rw [if_neg (by decide), objGet_skip_spacing _ _ _ _ _ hmo (by decide),
        objGet_skip_spacing _ _ _ _ _ hpo (by decide)]
      simp [objGet]
    · intro h
      simp only [Markup.styleOf, objGet_removeUndefinedStyles_objLiteral, List.reverse_append,
      List.reverse_cons, List.reverse_nil, List.nil_append, List.cons_append, List.append_assoc]
      rcases h with h | h <;> simp [objGet, h, JSValue.orDefault, JSValue.isStr]
    · intro h1 h2
      simp only [Markup.styleOf, objGet_removeUndefinedStyles_objLiteral, List.reverse_append,
      List.reverse_cons, List.reverse_nil, List.nil_append, List.cons_append, List.append_assoc]
      simp [objGet, isStr_orDefault_max _ h1 h2]
    · intro h
      simp only [Markup.styleOf, objGet_removeUndefinedStyles_objLiteral, List.reverse_append,
      List.reverse_cons, List.reverse_nil, List.nil_append, List.cons_append, List.append_assoc]
      simp [objGet, h, JSValue.orDefault, JSValue.isStr]
  · obtain ⟨po, mo, hpo, hmo, hrender⟩ := Column_render c hc1 hc2
    refine ⟨_, hrender, ?_, ?_, ?_, ?_⟩
    · simp only [Markup.styleOf, objGet_removeUndefinedStyles_objLiteral, List.reverse_append,
      List.reverse_cons, List.reverse_nil, List.nil_append, List.cons_append, List.append_assoc]
      simp only [objGet]
      rw [if_neg (by decide), objGet_skip_spacing _ _ _ _ _ hmo (by decide),
        objGet_skip_spacing _ _ _ _ _ hpo (by decide)]
      simp [objGet]
    · intro h
      simp only [Markup.styleOf, objGet_removeUndefinedStyles_objLiteral, List.reverse_append,
      List.reverse_cons, List.reverse_nil, List.nil_append, List.cons_append, List.append_assoc]
      rcases h with h | h <;> simp [objGet, h, JSValue.orDefault, JSValue.isStr]
    · intro h1 h2
      simp only [Markup.styleOf, objGet_removeUndefinedStyles_objLiteral, List.reverse_append,
      List.reverse_cons, List.reverse_nil, List.nil_append, List.cons_append, List.append_assoc]
      simp [objGet, isStr_orDefault_max _ h1 h2]
    · intro h
      simp only [Markup.styleOf, objGet_removeUndefinedStyles_objLiteral, List.reverse_append,
      List.reverse_cons, List.reverse_nil, List.nil_append, List.cons_append, List.append_assoc]
      simp [objGet, h, JSValue.orDefault, JSValue.isStr]

/-- C15, at a `Row` with mainAxisSize `min` and an object padding, a `Row` with the number
0 as mainAxisSize, and a `Column` with mainAxisSize omitted. -/
theorem Row_Column_main_axis_size_witness :
    (∃ el, Row { mainAxisSize := .str "min",
                 padding := .obj [("t", .num (.int 4))] } = .ok el
      ∧ objGet el.styleOf "flexDirection" = .str "row"
      ∧ objGet el.styleOf "width" = .str "auto")
    ∧ (∃ el, Row { mainAxisSize := .num (.int 0) } = .ok el
      ∧ objGet el.styleOf "width" = .str "auto")
    ∧ (∃ el, Column {} = .ok el
      ∧ objGet el.styleOf "flexDirection" = .str "column"
      ∧ objGet el.styleOf "height" = .str "100%") :=
  have h := Row_Column_main_axis_size
    { mainAxisSize := .str "min", padding := .obj [("t", .num (.int 4))] } {}
    (by simp) (by simp) (by simp) (by simp)
  have h0 := Row_Column_main_axis_size { mainAxisSize := .num (.int 0) } {}
    (by simp) (by simp) (by simp) (by simp)
  ⟨h.1.imp fun _ he => ⟨he.1, he.2.1, he.2.2.2.2 rfl⟩,
   h0.1.imp fun _ he => ⟨he.1, he.2.2.2.1 (by simp) (by simp)⟩,
   h.2.imp fun _ he => ⟨he.1, he.2.1, he.2.2.1 (Or.inr rfl)⟩⟩

/-- C20: wherever `GridView` renders (padding and margin not `null`), display is `grid`,
gridTemplateColumns is `repeat(c, 1fr)` for every columns value `c` and `repeat(2, 1fr)`
for the omitted prop, and columnGap and rowGap are the number followed by `px` for a number,
the string itself for a string, and `0px` for the omitted prop. -/
theorem GridView_template_and_gaps (p : GridViewProps)
    (hp : p.padding ≠ .null) (hm : p.margin ≠ .null) :
    ∃ el, GridView p = .ok el
      ∧ objGet el.styleOf "display" = .str "grid"
      ∧ (∀ n : JSNum, p.columns = .num n →
          objGet el.styleOf "gridTemplateColumns" = .str ("repeat(" ++ n.toStr ++ ", 1fr)"))
      ∧ (p.columns ≠ .undefined →
          objGet el.styleOf "gridTemplateColumns"
            = .str ("repeat(" ++ p.columns.toStr ++ ", 1fr)"))
      ∧ (p.columns = .undefined →
          objGet el.styleOf "gridTemplateColumns" = .str "repeat(2, 1fr)")
      ∧ (∀ sz : SizeValue, p.columnGap = sz.toJS →
          objGet el.styleOf "columnGap" = .str sz.css)
      ∧ (p.columnGap = .undefined → objGet el.styleOf "columnGap" = .str "0px")
      ∧ (∀ sz : SizeValue, p.rowGap = sz.toJS → objGet el.styleOf "rowGap" = .str sz.css)
      ∧ (p.rowGap = .undefined → objGet el.styleOf "rowGap" = .str "0px") := by
  obtain ⟨po, mo, hpo, hmo, hrender⟩ := GridView_render p hp hm
  have hor : ∀ v d : JSValue, v ≠ .undefined → v.orDefault d = v := by
    intro v d hv
    cases v <;> first | rfl | exact absurd rfl hv
  have hsz : ∀ (sz : SizeValue) (d : JSValue), sz.toJS.orDefault d = sz.toJS := by
    intro sz d
    cases sz <;> rfl
  refine ⟨_, hrender, ?_, ?_, ?_, ?_, ?_, ?_, ?_, ?_⟩
  all_goals
    simp only [Markup.styleOf, objGet_removeUndefinedStyles_objLiteral, List.reverse_append,
      List.reverse_cons, List.reverse_nil, List.nil_append, List.cons_append, List.append_assoc]
    rw [objGet_skip_spacing _ _ _ _ _ hmo (by decide),
      objGet_skip_spacing _ _ _ _ _ hpo (by decide)]
  · simp [objGet]
  · intro n h
    simp [objGet, h, JSValue.orDefault, JSValue.toStr]
  · intro h
    simp [objGet, hor _ _ h]
  · intro h
    simp only [objGet, h, JSValue.orDefault]
    rfl
  · intro sz h
    simp [objGet, h, hsz, pxIfNumber_toJS]
  · intro h
    simp only [objGet, h, JSValue.orDefault]
    rfl
  · intro sz h
    simp [objGet, h, hsz, pxIfNumber_toJS]
  · intro h
    simp only [objGet, h, JSValue.orDefault]
    rfl

/-- C20, at three columns, a numeric column gap and a string row gap. -/
theorem GridView_template_and_gaps_witness :
    ∃ el, GridView { columns := .num (.int 3), columnGap := .num (.int 8),
                     rowGap := .str "1em" } = .ok el
      ∧ objGet el.styleOf "display" = .str "grid"
      ∧ objGet el.styleOf "gridTemplateColumns" = .str "repeat(3, 1fr)"
      ∧ objGet el.styleOf "columnGap" = .str "8px"
      ∧ objGet el.styleOf "rowGap" = .str "1em" :=
  (GridView_template_and_gaps
    { columns := .num (.int 3), columnGap := .num (.int 8), rowGap := .str "1em" }
    (by simp) (by simp)).imp fun _ he =>
    ⟨he.1, he.2.1, he.2.2.1 (.int 3) rfl, he.2.2.2.2.2.1 (.number (.int 8)) rfl,
      he.2.2.2.2.2.2.2.1 (.string "1em") rfl⟩

/-! ## `Text`: gradient or color -/

theorem Text_render_gradient (p : TextProps) (sprops gprops : JSObject) (d : JSValue)
    (cs : List JSValue) (h1 : p.style = .obj sprops)
    (h2 : objGet sprops "gradient" = .obj gprops)
    (h3 : objGet gprops "direction" = d) (h4 : objGet gprops "colors" = .arr cs) :
    Text p = .ok (.element "div" [] (removeUndefinedStyles (objLiteral
      [ ("fontSize", pxIfNumber ((objGet sprops "fontSize").orDefault (.str "16px"))),
        ("fontWeight", (objGet sprops "fontWeight").orDefault (.str "normal")),
        ("textAlign", p.textAlign.orDefault (.str "left")),
        ("fontFamily", (objGet sprops "fontFamily").orDefault (.str "Arial, sans-serif")),
        ("letterSpacing", (objGet sprops "letterSpacing").orDefault (.str "normal")),
        ("lineHeight", (objGet sprops "lineHeight").orDefault (.str "normal")),
        ("background", .str ("linear-gradient(" ++ d.toStr ++ ", "
          ++ ", ".intercalate (JSValue.joinItems cs) ++ ")")),
        ("WebkitBackgroundClip", .str "text"),
        ("WebkitTextFillColor", .str "transparent"),
        ("color", .undefined) ])) [.expr p.data]) := by
  simp only [Text, h1, h2, h3, h4, JSValue.orDefault, JSValue.getProp, Text.backgroundStyle,
    JSValue.truthy, JSValue.join, bind, Except.bind, if_true]

theorem Text_render_plain (p : TextProps) (sprops : JSObject)
    (h1 : p.style.orDefault (.obj []) = .obj sprops)
    (h2 : objGet sprops "gradient" = .undefined) :
    Text p = .ok (.element "div" [] (removeUndefinedStyles (objLiteral
      [ ("fontSize", pxIfNumber ((objGet sprops "fontSize").orDefault (.str "16px"))),
        ("fontWeight", (objGet sprops "fontWeight").orDefault (.str "normal")),
        ("textAlign", p.textAlign.orDefault (.str "left")),
        ("fontFamily", (objGet sprops "fontFamily").orDefault (.str "Arial, sans-serif")),
        ("letterSpacing", (objGet sprops "letterSpacing").orDefault (.str "normal")),
        ("lineHeight", (objGet sprops "lineHeight").orDefault (.str "normal")),
        ("background", .undefined),
        ("WebkitBackgroundClip", .undefined),
        ("WebkitTextFillColor", (objGet sprops "color").orDefault (.str "black")),
        ("color", (objGet sprops "color").orDefault (.str "black")) ])) [.expr p.data]) := by
  simp only [Text, h1, h2, JSValue.getProp, Text.backgroundStyle, JSValue.truthy, bind,
    Except.bind]
  rfl

theorem orDefault_ne_undefined (v d : JSValue) (hd : d ≠ .undefined) :
    v.orDefault d ≠ .undefined := by
  cases v <;> simp_all [JSValue.orDefault]

/-- C16: with a gradient supplied (an object with a direction and an array of colors)
`Text` has the background `linear-gradient(direction, colors joined by ", ")`,
WebkitBackgroundClip `text`, WebkitTextFillColor `transparent` and no color key; with no
gradient it has color and WebkitTextFillColor both equal to the color of the style prop,
`black` when that is omitted, and neither a background nor a WebkitBackgroundClip key. -/
theorem Text_gradient_or_color (g n : TextProps) (gs gg ns : JSObject) (d : String)
    (cs : List String)
    (hg1 : g.style = .obj gs) (hg2 : objGet gs "gradient" = .obj gg)
    (hg3 : objGet gg "direction" = .str d)
    (hg4 : objGet gg "colors" = .arr (cs.map JSValue.str))
    (hn1 : n.style.orDefault (.obj []) = .obj ns)
    (hn2 : objGet ns "gradient" = .undefined) :
    (∃ el, Text g = .ok el
      ∧ objGet el.styleOf "background"
          = .str ("linear-gradient(" ++ d ++ ", " ++ ", ".intercalate cs ++ ")")
      ∧ objGet el.styleOf "WebkitBackgroundClip" = .str "text"
      ∧ objGet el.styleOf "WebkitTextFillColor" = .str "transparent"
      ∧ "color" ∉ objKeys el.styleOf)
    ∧ (∃ el, Text n = .ok el
      ∧ objGet el.styleOf "color" = (objGet ns "color").orDefault (.str "black")
      ∧ objGet el.styleOf "WebkitTextFillColor"
          = (objGet ns "color").orDefault (.str "black")
      ∧ (objGet ns "color").orDefault (.str "black") ≠ .undefined
      ∧ "background" ∉ objKeys el.styleOf
      ∧ "WebkitBackgroundClip" ∉ objKeys el.styleOf) := by
  constructor
  · refine ⟨_, Text_render_gradient g gs gg _ _ hg1 hg2 hg3 hg4, ?_, ?_, ?_, ?_⟩
    · simp [Markup.styleOf, objGet_removeUndefinedStyles_objLiteral, objGet,
        joinItems_map_str, JSValue.toStr]
    · simp [Markup.styleOf, objGet_removeUndefinedStyles_objLiteral, objGet]
    · simp [Markup.styleOf, objGet_removeUndefinedStyles_objLiteral, objGet]
    · simp [Markup.styleOf, mem_objKeys_removeUndefinedStyles_objLiteral, objGet]
  · refine ⟨_, Text_render_plain n ns hn1 hn2, ?_, ?_,
      orDefault_ne_undefined _ _ (by simp), ?_, ?_⟩
    · simp [Markup.styleOf, objGet_removeUndefinedStyles_objLiteral, objGet]
    · simp [Markup.styleOf, objGet_removeUndefinedStyles_objLiteral, objGet]
    · simp [Markup.styleOf, mem_objKeys_removeUndefinedStyles_objLiteral, objGet]
    · simp [Markup.styleOf, mem_objKeys_removeUndefinedStyles_objLiteral, objGet]

/-- C16, at a two-color gradient, and at a style holding only the color `red`. -/
theorem Text_gradient_or_color_witness :
    (∃ el, Text { style := .obj [("gradient", .obj [("direction", .str "to left"),
                    ("colors", .arr [.str "red", .str "blue"])])] } = .ok el
      ∧ objGet el.styleOf "background" = .str "linear-gradient(to left, red, blue)"
      ∧ objGet el.styleOf "WebkitBackgroundClip" = .str "text"
      ∧ objGet el.styleOf "WebkitTextFillColor" = .str "transparent"
      ∧ "color" ∉ objKeys el.styleOf)
    ∧ (∃ el, Text { style := .obj [("color", .str "red")] } = .ok el
      ∧ objGet el.styleOf "color" = .str "red"
      ∧ objGet el.styleOf "WebkitTextFillColor" = .str "red"
      ∧ "background" ∉ objKeys el.styleOf
      ∧ "WebkitBackgroundClip" ∉ objKeys el.styleOf) :=
  have h := Text_gradient_or_color
    { style := .obj [("gradient", .obj [("direction", .str "to left"),
        ("colors", .arr [.str "red", .str "blue"])])] }
    { style := .obj [("color", .str "red")] }
    [("gradient", .obj [("direction", .str "to left"),
        ("colors", .arr [.str "red", .str "blue"])])]
    [("direction", .str "to left"), ("colors", .arr [.str "red", .str "blue"])]
    [("color", .str "red")] "to left" ["red", "blue"] rfl rfl rfl rfl rfl rfl
  ⟨h.1, h.2.imp fun _ he => ⟨he.1, he.2.1, he.2.2.1, he.2.2.2.2.1, he.2.2.2.2.2⟩⟩

/-! ## `Container`: the decoration entries -/

theorem border_width_css (w : SizeValue) :
    w.toJS.toStr ++ (if w.toJS.typeof = "number" then "px" else "") = w.css := by
  cases w with
  | number n => rfl
  | string s => simp [SizeValue.toJS, SizeValue.css, JSValue.toStr, JSValue.typeof]

theorem pxIfNumber_toJS_toStr (sz : SizeValue) : (pxIfNumber sz.toJS).toStr = sz.css := by
  rw [pxIfNumber_toJS]; rfl

theorem except_bind_eq_ok {ε α β : Type} (x : Except ε α) (f : α → Except ε β) (b : β)
    (h : x >>= f = .ok b) : ∃ a, x = .ok a ∧ f a = .ok b := by
  cases x with
  | error e => cases h
  | ok a => exact ⟨a, rfl, h⟩

/-- Every render of `Container` that succeeds has overflow `hidden`: no prop reaches the
last entry of the style. -/
theorem Container_overflow_hidden (q : ContainerProps) (el : Markup)
    (h : Container q = .ok el) : objGet el.styleOf "overflow" = .str "hidden" := by
  simp only [Container] at h
  obtain ⟨backgroundColor, -, h⟩ := except_bind_eq_ok _ _ _ h
  obtain ⟨border, -, h⟩ := except_bind_eq_ok _ _ _ h
  obtain ⟨borderRadius, -, h⟩ := except_bind_eq_ok _ _ _ h
  obtain ⟨boxShadow, -, h⟩ := except_bind_eq_ok _ _ _ h
  obtain ⟨gradient, -, h⟩ := except_bind_eq_ok _ _ _ h
  obtain ⟨marginStyle, -, h⟩ := except_bind_eq_ok _ _ _ h
  obtain ⟨paddingStyle, -, h⟩ := except_bind_eq_ok _ _ _ h
  obtain ⟨borderV, -, h⟩ := except_bind_eq_ok _ _ _ h
  obtain ⟨boxShadowV, -, h⟩ := except_bind_eq_ok _ _ _ h
  obtain ⟨backgroundV, -, h⟩ := except_bind_eq_ok _ _ _ h
  cases h
  simp [Markup.styleOf, objGet_removeUndefinedStyles_objLiteral, objGet]

/-- C14: for a decoration with all its fields present, wherever `Container` renders
(padding and margin not `null`), border is the width (followed by `px` exactly when a
number), ` solid ` and the color; boxShadow is the offsets x and y, the blur and the spread
radius (each followed by `px` exactly when a number) and the color, single spaces between;
background is `linear-gradient(direction, colors joined by ", ")`; and overflow is `hidden`,
there and in every render of `Container` that succeeds, whatever its props. -/
theorem Container_decoration_format (p : ContainerProps)
    (dprops bprops sprops oprops gprops : JSObject)
    (w x y blur spread : SizeValue) (c sc d : String) (cs : List String)
    (hp : p.padding ≠ .null) (hm : p.margin ≠ .null)
    (hdec : p.decoration = .obj dprops)
    (hb : objGet dprops "border" = .obj bprops)
    (hbw : objGet bprops "width" = w.toJS) (hbc : objGet bprops "color" = .str c)
    (hs : objGet dprops "boxShadow" = .obj sprops)
    (hso : objGet sprops "offset" = .obj oprops)
    (hsx : objGet oprops "x" = x.toJS) (hsy : objGet oprops "y" = y.toJS)
    (hsb : objGet sprops "blurRadius" = blur.toJS)
    (hsr : objGet sprops "spreadRadius" = spread.toJS)
    (hsc : objGet sprops "color" = .str sc)
    (hg : objGet dprops "gradient" = .obj gprops)
    (hgd : objGet gprops "direction" = .str d)
    (hgc : objGet gprops "colors" = .arr (cs.map JSValue.str)) :
    ∃ el, Container p = .ok el
      ∧ objGet el.styleOf "border" = .str (w.css ++ " solid " ++ c)
      ∧ objGet el.styleOf "boxShadow"
          = .str (x.css ++ " " ++ y.css ++ " " ++ blur.css ++ " " ++ spread.css ++ " " ++ sc)
      ∧ objGet el.styleOf "background"
          = .str ("linear-gradient(" ++ d ++ ", " ++ ", ".intercalate cs ++ ")")
      ∧ objGet el.styleOf "overflow" = .str "hidden"
      ∧ (∀ (q : ContainerProps) (el2 : Markup), Container q = .ok el2 →
          objGet el2.styleOf "overflow" = .str "hidden") := by
  obtain ⟨po, hpo⟩ := handleSpacing_ok_of_ne_null "padding" _
    (orDefault_ne_null p.padding (.num (.int 0)) hp (by simp))
  obtain ⟨mo, hmo⟩ := handleSpacing_ok_of_ne_null "margin" _
    (orDefault_ne_null p.margin (.num (.int 0)) hm (by simp))
  have hrender : Container p = .ok (.element "div" [] (removeUndefinedStyles (objLiteral
      ([ ("width", handleSize (p.width.orDefault (.str "auto"))),
         ("height", handleSize (p.height.orDefault (.str "auto"))) ]
        ++ mo ++ po
        ++ [ ("display", .str "flex"),
             ("justifyContent", .str (Container.alignmentSwitch
                (p.alignment.orDefault (.str "topLeft"))).1),
             ("alignItems", .str (Container.alignmentSwitch
                (p.alignment.orDefault (.str "topLeft"))).2),
             ("backgroundColor", objGet dprops "backgroundColor"),
             ("border", .str (w.css ++ " solid " ++ c)),
             ("borderRadius", Container.borderRadiusStyle (objGet dprops "borderRadius")),
             ("boxShadow", .str (x.css ++ " " ++ y.css ++ " " ++ blur.css ++ " "
                ++ spread.css ++ " " ++ sc)),
             ("background", .str ("linear-gradient(" ++ d ++ ", "
                ++ ", ".intercalate cs ++ ")")),
             ("overflow", .str "hidden") ]))) [.expr p.child]) := by
    have hd : p.decoration.orDefault Container.defaultDecoration = .obj dprops := by
      rw [hdec]; rfl
    simp only [Container, hd, hb, hbw, hbc, hs, hso, hsx, hsy, hsb, hsr, hsc, hg, hgd, hgc,
      hpo, hmo, JSValue.getProp, Container.borderStyle,
      Container.boxShadowStyle, Container.backgroundStyle, JSValue.truthy, JSValue.join,
      bind, Except.bind, if_true, joinItems_map_str, border_width_css,
      pxIfNumber_toJS_toStr, JSValue.toStr]
  refine ⟨_, hrender, ?_, ?_, ?_, ?_, Container_overflow_hidden⟩ <;>
    simp [Markup.styleOf, objGet_removeUndefinedStyles_objLiteral, objGet]

/-- C14, at a decoration with a numeric border width, string and numeric shadow lengths and
a two-color gradient. -/
theorem Container_decoration_format_witness :
    ∃ el, Container { decoration := .obj [
              ("backgroundColor", .str "white"),
              ("border", .obj [("width", .num (.int 2)), ("color", .str "red")]),
              ("borderRadius", .num (.int 4)),
              ("boxShadow", .obj
                [ ("offset", .obj [("x", .num (.int 1)), ("y", .str "2em")]),
                  ("blurRadius", .num (.int 3)), ("spreadRadius", .num (.int 0)),
                  ("color", .str "gray") ]),
              ("gradient", .obj
                [ ("direction", .str "to right"),
                  ("colors", .arr [.str "red", .str "blue"]) ]) ] } = .ok el
      ∧ objGet el.styleOf "border" = .str "2px solid red"
      ∧ objGet el.styleOf "boxShadow" = .str "1px 2em 3px 0px gray"
      ∧ objGet el.styleOf "background" = .str "linear-gradient(to right, red, blue)"
      ∧ objGet el.styleOf "overflow" = .str "hidden" :=
  (Container_decoration_format
    { decoration := .obj [
          ("backgroundColor", .str "white"),
          ("border", .obj [("width", .num (.int 2)), ("color", .str "red")]),
          ("borderRadius", .num (.int 4)),
          ("boxShadow", .obj
            [ ("offset", .obj [("x", .num (.int 1)), ("y", .str "2em")]),
              ("blurRadius", .num (.int 3)), ("spreadRadius", .num (.int 0)),
              ("color", .str "gray") ]),
          ("gradient", .obj
            [ ("direction", .str "to right"),
              ("colors", .arr [.str "red", .str "blue"]) ]) ] }
    _ [("width", .num (.int 2)), ("color", .str "red")]
    [ ("offset", .obj [("x", .num (.int 1)), ("y", .str "2em")]),
      ("blurRadius", .num (.int 3)), ("spreadRadius", .num (.int 0)),
      ("color", .str "gray") ]
    [("x", .num (.int 1)), ("y", .str "2em")]
    [("direction", .str "to right"), ("colors", .arr [.str "red", .str "blue"])]
    (.number (.int 2)) (.number (.int 1)) (.string "2em") (.number (.int 3))
    (.number (.int 0)) "red" "gray" "to right" ["red", "blue"]
    (by simp) (by simp) rfl rfl rfl rfl rfl rfl rfl rfl rfl rfl rfl rfl rfl rfl).imp
    fun _ he => ⟨he.1, he.2.1, he.2.2.1, he.2.2.2.1, he.2.2.2.2.1⟩

/-! ## `Positioned` -/

theorem Positioned_style (p : PositionedProps) :
    (Positioned p).styleOf
      = [("position", .str "absolute")] ++ positionedSide "top" p.top
        ++ positionedSide "bottom" p.bottom ++ positionedSide "left" p.left
        ++ positionedSide "right" p.right := by
  have hnd : objLiteral
      [ ("position", .str "absolute"), ("top", pxIfNumber p.top),
        ("bottom", pxIfNumber p.bottom), ("left", pxIfNumber p.left),
        ("right", pxIfNumber p.right) ]
      = [ ("position", .str "absolute"), ("top", pxIfNumber p.top),
        ("bottom", pxIfNumber p.bottom), ("left", pxIfNumber p.left),
        ("right", pxIfNumber p.right) ] := objLiteral_of_nodup _ (by simp [objKeys])
  have hS : (JSValue.str "absolute").isUndefined = false := rfl
  simp only [Positioned, Markup.styleOf, hnd]
  rcases hT : p.top.isUndefined <;> rcases hB : p.bottom.isUndefined <;>
    rcases hL : p.left.isUndefined <;> rcases hR : p.right.isUndefined
  all_goals
    simp only [Positioned.deleteUndefined, objKeys, List.map, List.foldl, objGet,
      pxIfNumber_isUndefined, hT, hB, hL, hR, hS, objDelete, List.filter,
      String.reduceEq, if_true, if_false, reduceIte, Bool.false_eq_true,
      String.reduceBNe, removeUndefinedStyles, Bool.not_true, Bool.not_false, positionedSide,
      List.nil_append, List.append_nil, List.cons_append]
    exact objLiteral_of_nodup _ (by simp [objKeys])

theorem isUndefined_eq_false_iff (v : JSValue) : v.isUndefined = false ↔ v ≠ .undefined := by
  cases v <;> simp [JSValue.isUndefined]

/-- C19: the style of `Positioned` has position `absolute`; each of the keys top, bottom,
left and right is present exactly when its prop is not `undefined`, and its value is the
number followed by `px` for a number and the string itself for a string. -/
theorem Positioned_sides (p : PositionedProps) :
    objGet (Positioned p).styleOf "position" = .str "absolute"
    ∧ ("top" ∈ objKeys (Positioned p).styleOf ↔ p.top ≠ .undefined)
    ∧ ("bottom" ∈ objKeys (Positioned p).styleOf ↔ p.bottom ≠ .undefined)
    ∧ ("left" ∈ objKeys (Positioned p).styleOf ↔ p.left ≠ .undefined)
    ∧ ("right" ∈ objKeys (Positioned p).styleOf ↔ p.right ≠ .undefined)
    ∧ (∀ sz : SizeValue, p.top = sz.toJS →
        objGet (Positioned p).styleOf "top" = .str sz.css)
    ∧ (∀ sz : SizeValue, p.bottom = sz.toJS →
        objGet (Positioned p).styleOf "bottom" = .str sz.css)
    ∧ (∀ sz : SizeValue, p.left = sz.toJS →
        objGet (Positioned p).styleOf "left" = .str sz.css)
    ∧ (∀ sz : SizeValue, p.right = sz.toJS →
        objGet (Positioned p).styleOf "right" = .str sz.css) := by
  have hsz : ∀ sz : SizeValue, sz.toJS.isUndefined = false := by
    intro sz; cases sz <;> rfl
  rw [Positioned_style]
  refine ⟨by simp [objGet], ?_, ?_, ?_, ?_, ?_, ?_, ?_, ?_⟩
  · rw [← isUndefined_eq_false_iff]
    rcases hT : p.top.isUndefined <;> rcases hB : p.bottom.isUndefined <;>
      rcases hL : p.left.isUndefined <;> rcases hR : p.right.isUndefined <;>
      simp [positionedSide, objKeys, hT, hB, hL, hR]
  · rw [← isUndefined_eq_false_iff]
    rcases hT : p.top.isUndefined <;> rcases hB : p.bottom.isUndefined <;>
      rcases hL : p.left.isUndefined <;> rcases hR : p.right.isUndefined <;>
      simp [positionedSide, objKeys, hT, hB, hL, hR]
  · rw [← isUndefined_eq_false_iff]
    rcases hT : p.top.isUndefined <;> rcases hB : p.bottom.isUndefined <;>
      rcases hL : p.left.isUndefined <;> rcases hR : p.right.isUndefined <;>
      simp [positionedSide, objKeys, hT, hB, hL, hR]
  · rw [← isUndefined_eq_false_iff]
    rcases hT : p.top.isUndefined <;> rcases hB : p.bottom.isUndefined <;>
      rcases hL : p.left.isUndefined <;> rcases hR : p.right.isUndefined <;>
      simp [positionedSide, objKeys, hT, hB, hL, hR]
  · intro sz h
    simp [positionedSide, objGet, h, hsz, pxIfNumber_toJS]
  · intro sz h
    rcases hT : p.top.isUndefined <;>
      simp [positionedSide, objGet, h, hsz, pxIfNumber_toJS, hT]
  · intro sz h
    rcases hT : p.top.isUndefined <;> rcases hB : p.bottom.isUndefined <;>
      simp [positionedSide, objGet, h, hsz, pxIfNumber_toJS, hT, hB]
  · intro sz h
    rcases hT : p.top.isUndefined <;> rcases hB : p.bottom.isUndefined <;>
      rcases hL : p.left.isUndefined <;>
      simp [positionedSide, objGet, h, hsz, pxIfNumber_toJS, hT, hB, hL]

/-- C19, at a top of zero, a string left, and bottom and right omitted. -/
theorem Positioned_sides_witness :
    (Positioned { top := .num (.int 0), left := .str "5%" }).styleOf
        = [("position", .str "absolute"), ("top", .str "0px"), ("left", .str "5%")]
    ∧ objGet (Positioned { top := .num (.int 0), left := .str "5%" }).styleOf "top"
        = .str "0px"
    ∧ "bottom" ∉ objKeys (Positioned { top := .num (.int 0), left := .str "5%" }).styleOf :=
  have h := Positioned_sides { top := .num (.int 0), left := .str "5%" }
  ⟨rfl, h.2.2.2.2.2.1 (.number (.int 0)) rfl, fun hb => (h.2.2.1.mp hb) rfl⟩

/-! ## The root node -/

theorem Icon_none_of_unknown_library (p : IconProps) (s : String)
    (h : p.iconLibrary = .str s) (hs : s ∉ ["font", "material", "svg"]) : Icon p = none := by
  simp only [List.mem_cons, List.mem_singleton, List.not_mem_nil, or_false, not_or] at hs
  simp [Icon, h, JSValue.orDefault, JSValue.isStr, hs]

theorem LinearProgressIndicator_one_root (p : LinearProgressIndicatorProps) :
    ∃ containerStyle progressStyle,
      LinearProgressIndicator p
        = .element "div" [] containerStyle [.element "div" [] progressStyle []] :=
  ⟨_, _, rfl⟩

/-- C21: for the iconLibrary `fontawesome`, which is none of `font`, `material` and `svg`,
`Icon` returns `undefined`, no element; for each of the three it returns one. -/
theorem Icon_unknown_library_returns_nothing :
    Icon { iconLibrary := .str "fontawesome", iconData := .str "fa fa-home" } = none
    ∧ (Icon { iconLibrary := .str "font", iconData := .str "fa fa-home" }).isSome = true
    ∧ (Icon { iconLibrary := .str "material", iconData := .str "home" }).isSome = true
    ∧ (Icon { iconLibrary := .str "svg", iconData := .str "" }).isSome = true
    ∧ (Icon { iconData := .str "fa fa-home" }).isSome = true :=
  ⟨rfl, rfl, rfl, rfl, rfl⟩

/-! ## `CircularProgressIndicator` -/

theorem orDefault_isUndefined (v d : JSValue) (hd : d.isUndefined = false) :
    (v.orDefault d).isUndefined = false := by
  cases v <;> first | exact hd | rfl

theorem CircularProgressIndicator_style (p : CircularProgressIndicatorProps) :
    (CircularProgressIndicator p).styleOf
      = [ ("width", pxIfNumber (p.size.orDefault (.num (.int 40)))),
          ("height", pxIfNumber (p.size.orDefault (.num (.int 40)))),
          ("borderWidth", .str ((p.thickness.orDefault (.num (.int 4))).toStr ++ "px")),
          ("borderStyle", .str "solid"),
          ("borderColor", .str ((p.color.orDefault (.str "#000")).toStr ++ " "
            ++ (p.color.orDefault (.str "#000")).toStr ++ " transparent")),
          ("borderRadius", .str "50%"),
          ("animation", .str (if (p.indeterminate.orDefault (.bool true)).truthy
            then "spin 1.2s linear infinite" else "none")) ] := by
  have hsize : (pxIfNumber (p.size.orDefault (.num (.int 40)))).isUndefined = false := by
    rw [pxIfNumber_isUndefined]; exact orDefault_isUndefined _ _ rfl
  have hstr : ∀ t : String, (JSValue.str t).isUndefined = false := fun _ => rfl
  simp only [CircularProgressIndicator, Markup.styleOf]
  rw [objLiteral_of_nodup _ (by simp [objKeys])]
  simp only [removeUndefinedStyles, List.filter, hsize, hstr, Bool.not_false]
  exact objLiteral_of_nodup _ (by simp [objKeys])

/-- C26: in the style of `CircularProgressIndicator` width and height are both the size,
followed by `px` exactly when a number and `40px` when omitted; borderWidth is the thickness
followed by `px`; borderColor is the color twice and `transparent`; animation is
`spin 1.2s linear infinite` for indeterminate `true` (and omitted) and `none` for `false`. -/
theorem CircularProgressIndicator_style_entries (p : CircularProgressIndicatorProps) :
    (∀ sz : SizeValue, p.size = sz.toJS →
        objGet (CircularProgressIndicator p).styleOf "width" = .str sz.css
        ∧ objGet (CircularProgressIndicator p).styleOf "height" = .str sz.css)
    ∧ (p.size = .undefined →
        objGet (CircularProgressIndicator p).styleOf "width" = .str "40px"
        ∧ objGet (CircularProgressIndicator p).styleOf "height" = .str "40px")
    ∧ (∀ n : JSNum, p.thickness = .num n →
        objGet (CircularProgressIndicator p).styleOf "borderWidth" = .str (n.toStr ++ "px"))
    ∧ (∀ c : String, p.color = .str c →
        objGet (CircularProgressIndicator p).styleOf "borderColor"
          = .str (c ++ " " ++ c ++ " transparent"))
    ∧ (p.indeterminate = .bool true ∨ p.indeterminate = .undefined →
        objGet (CircularProgressIndicator p).styleOf "animation"
          = .str "spin 1.2s linear infinite")
    ∧ (p.indeterminate = .bool false →
        objGet (CircularProgressIndicator p).styleOf "animation" = .str "none") := by
  have hsz : ∀ (sz : SizeValue) (d : JSValue), sz.toJS.orDefault d = sz.toJS := by
    intro sz d
    cases sz <;> rfl
  rw [CircularProgressIndicator_style]
  refine ⟨?_, ?_, ?_, ?_, ?_, ?_⟩
  · intro sz h
    simp [objGet, h, hsz, pxIfNumber_toJS]
  · intro h
    simp only [objGet, h, JSValue.orDefault]
    exact ⟨rfl, rfl⟩
  · intro n h
    simp [objGet, h, JSValue.orDefault, JSValue.toStr]
  · intro c h
    simp [objGet, h, JSValue.orDefault, JSValue.toStr]
  · intro h
    rcases h with h | h <;> simp [objGet, h, JSValue.orDefault, JSValue.truthy]
  · intro h
    simp [objGet, h, JSValue.orDefault, JSValue.truthy]

/-- C26, at a string size, the color `red`, the thickness 2 and indeterminate `false`. -/
theorem CircularProgressIndicator_style_entries_witness :
    (CircularProgressIndicator
        { size := .str "2em", color := .str "red", thickness := .num (.int 2),
          indeterminate := .bool false }).styleOf
      = [ ("width", .str "2em"), ("height", .str "2em"), ("borderWidth", .str "2px"),
          ("borderStyle", .str "solid"), ("borderColor", .str "red red transparent"),
          ("borderRadius", .str "50%"), ("animation", .str "none") ]
    ∧ objGet (CircularProgressIndicator
        { size := .str "2em", color := .str "red", thickness := .num (.int 2),
          indeterminate := .bool false }).styleOf "animation"
      = .str "none" :=
  ⟨rfl, (CircularProgressIndicator_style_entries
      { size := .str "2em", color := .str "red", thickness := .num (.int 2),
        indeterminate := .bool false }).2.2.2.2.2 rfl⟩

/-! ## The style element in the document head -/

theorem filter_ne_fresh (l : List DomNode) (k : Nat) (h : ∀ n ∈ l, n.id < k) :
    l.filter (fun n => n.id != k) = l := by
  apply List.filter_eq_self.mpr
  intro n hn
  have := h n hn
  simp only [bne_iff_ne, ne_eq]
  omega

/-- Appending a fresh element to the head and then removing it gives the head back. -/
theorem append_then_remove_fresh (doc : Document) (node : DomNode)
    (hid : node.id = doc.nextId) (h : doc.WellFormed) (next : Nat) :
    (({ doc with nextId := next } : Document).appendToHead node).head = doc.head ++ [node]
    ∧ ((({ doc with nextId := next } : Document).appendToHead node).removeFromHead node).map
        Document.head = .ok doc.head := by
  have hf : doc.head.filter (fun n => n.id != node.id) = doc.head :=
    filter_ne_fresh doc.head node.id (by rw [hid]; exact h.2)
  have happ : (({ doc with nextId := next } : Document).appendToHead node).head
      = doc.head ++ [node] := by
    simp only [Document.appendToHead, hf]
  refine ⟨happ, ?_⟩
  have hany : (doc.head ++ [node]).any (fun n => n.id == node.id) = true := by
    simp
  simp only [Document.removeFromHead, Document.appendToHead, hf, hany, if_true, Except.map,
    List.filter_append, List.filter_cons, List.filter_nil, bne_self_eq_false,
    Bool.false_eq_true, if_false, List.append_nil]

/-- C25: on a well-formed document, mounting `CircularProgressIndicator` or
`LinearProgressIndicator` appends one element to the head, a `style` element of type
`text/css` whose text is the keyframes rule, and unmounting removes that element: the head
children after the mount and the unmount are those before the mount. -/
theorem progress_indicator_style_element (doc : Document) (h : doc.WellFormed) :
    ((CircularProgressIndicator.mountEffect doc).1.head
        = doc.head ++ [(CircularProgressIndicator.mountEffect doc).2]
      ∧ (CircularProgressIndicator.mountEffect doc).2.tag = "style"
      ∧ (CircularProgressIndicator.mountEffect doc).2.typeAttr = "text/css"
      ∧ (CircularProgressIndicator.mountEffect doc).2.text
          = CircularProgressIndicator.keyframes
      ∧ (CircularProgressIndicator.cleanup (CircularProgressIndicator.mountEffect doc).2
            (CircularProgressIndicator.mountEffect doc).1).map Document.head
          = .ok doc.head)
    ∧ ((LinearProgressIndicator.mountEffect doc).1.head
        = doc.head ++ [(LinearProgressIndicator.mountEffect doc).2]
      ∧ (LinearProgressIndicator.mountEffect doc).2.tag = "style"
      ∧ (LinearProgressIndicator.mountEffect doc).2.typeAttr = "text/css"
      ∧ (LinearProgressIndicator.mountEffect doc).2.text = LinearProgressIndicator.keyframes
      ∧ (LinearProgressIndicator.cleanup (LinearProgressIndicator.mountEffect doc).2
            (LinearProgressIndicator.mountEffect doc).1).map Document.head
          = .ok doc.head)
    ∧ containsChars "@keyframes spin".data CircularProgressIndicator.keyframes.data = true
    ∧ containsChars "@keyframes indeterminate".data LinearProgressIndicator.keyframes.data
        = true := by
  refine ⟨?_, ?_, by decide, by decide⟩
  · have hc := append_then_remove_fresh doc
      ⟨doc.nextId, "style", "text/css", CircularProgressIndicator.keyframes⟩ rfl h
      (doc.nextId + 1)
    exact ⟨hc.1, rfl, rfl, rfl, hc.2⟩
  · have hl := append_then_remove_fresh doc
      ⟨doc.nextId, "style", "text/css", LinearProgressIndicator.keyframes⟩ rfl h
      (doc.nextId + 1)
    exact ⟨hl.1, rfl, rfl, rfl, hl.2⟩

/-- C25, at a head that already has a title and a style element. -/
theorem progress_indicator_style_element_witness :
    (CircularProgressIndicator.cleanup
        (CircularProgressIndicator.mountEffect
          ⟨[⟨0, "title", "", "demo"⟩, ⟨1, "style", "text/css", "body"⟩], 2⟩).2
        (CircularProgressIndicator.mountEffect
          ⟨[⟨0, "title", "", "demo"⟩, ⟨1, "style", "text/css", "body"⟩], 2⟩).1).map
        Document.head
      = .ok [⟨0, "title", "", "demo"⟩, ⟨1, "style", "text/css", "body"⟩] :=
  (progress_indicator_style_element
    ⟨[⟨0, "title", "", "demo"⟩, ⟨1, "style", "text/css", "body"⟩], 2⟩
    ⟨by decide, by decide⟩).1.2.2.2.2

/-! ## `GestureDetector`: the long-press timer -/

open GestureDetector in
/-- One press and its release in the first render, with nothing between them but time:
`onLongPress` is called with the event of the press exactly when 500 ms passed before the
release. -/
theorem GestureDetector_single_press (props : GestureProps) (h : props.onLongPress = true)
    (e e2 a b : Nat) :
    HandlerCall.onLongPress e
        ∈ (run (mount props) [.mouseDown e, .elapse a, .mouseUp e2, .elapse b]).calls
      ↔ 500 ≤ a := by
  rcases hd : props.onMouseDown <;> rcases hu : props.onMouseUp <;>
    by_cases ha : 500 ≤ a <;>
    simp [run, step, mount, handleMouseDown, handleMouseUp, elapse, h, hd, hu, ha]

open GestureDetector in
/-- Without `onLongPress` a mouse-down sets no timer. -/
theorem GestureDetector_no_timer_without_onLongPress (s : GestureState) (e : Nat)
    (h : s.props.onLongPress = false) :
    (step s (.mouseDown e)).pending = s.pending
    ∧ (step s (.mouseDown e)).timer = s.timer
    ∧ (step s (.mouseDown e)).nextTimerId = s.nextTimerId := by
  rcases hd : s.props.onMouseDown <;> simp [step, handleMouseDown, h, hd]

open GestureDetector in
/-- C22: within one render, a press at time 0, a second press at 100 ms and a release at
200 ms: the release clears the timer of the second press only, the timer of the first press
stays pending and at 500 ms `onLongPress` is called with the event of the first press,
although the next mouse-up came before 500 ms had passed. -/
theorem GestureDetector_release_misses_earlier_press :
    (run (mount { onLongPress := true })
        [.mouseDown 1, .elapse 100, .mouseDown 2, .elapse 100, .mouseUp 3]).pending
      = [⟨1, 500, 1⟩]
    ∧ (run (mount { onLongPress := true })
        [.mouseDown 1, .elapse 100, .mouseDown 2, .elapse 100, .mouseUp 3]).calls = []
    ∧ (run (mount { onLongPress := true })
        [.mouseDown 1, .elapse 100, .mouseDown 2, .elapse 100, .mouseUp 3, .elapse 300]).calls
      = [.onLongPress 1] := by
  decide

open GestureDetector in
/-- C23, as stated, fails: after a press, the pointer leaving the element at 100 ms leaves
the timer pending, and at 500 ms `onLongPress` is called, after the `onMouseLeave` call. -/
theorem GestureDetector_leave_does_not_cancel :
    (run (mount { onLongPress := true, onMouseLeave := true })
        [.mouseDown 1, .elapse 100, .mouseLeave 2]).pending = [⟨1, 500, 1⟩]
    ∧ (run (mount { onLongPress := true, onMouseLeave := true })
        [.mouseDown 1, .elapse 100, .mouseLeave 2, .elapse 400]).calls
      = [.onMouseLeave 2, .onLongPress 1] := by
  decide

open GestureDetector in
theorem step_now (st : GestureState) (ev : GestureEvent) :
    (step st ev).now = st.now + ev.elapsed := by
  cases ev with
  | mouseDown e =>
    rcases hl : st.props.onLongPress <;> rcases hd : st.props.onMouseDown <;>
      simp [step, handleMouseDown, GestureEvent.elapsed, hl, hd]
  | mouseUp e =>
    rcases ht : st.timer <;> rcases hu : st.props.onMouseUp <;>
      simp [step, handleMouseUp, GestureEvent.elapsed, ht, hu]
  | click e => rcases h : st.props.onTap <;> simp [step, GestureEvent.elapsed, h]
  | doubleClick e => rcases h : st.props.onDoubleTap <;> simp [step, GestureEvent.elapsed, h]
  | mouseEnter e => rcases h : st.props.onMouseEnter <;> simp [step, GestureEvent.elapsed, h]
  | mouseLeave e => rcases h : st.props.onMouseLeave <;> simp [step, GestureEvent.elapsed, h]
  | rerender props => simp [step, GestureEvent.elapsed]
  | elapse ms => simp [step, elapse, GestureEvent.elapsed]

open GestureDetector in
theorem run_now (st : GestureState) (events : List GestureEvent) :
    (run st events).now = st.now + totalElapsed events := by
  induction events generalizing st with
  | nil => simp [run, totalElapsed]
  | cons ev rest ih =>
    have := ih (step st ev)
    simp only [run, List.foldl_cons] at this ⊢
    rw [this, step_now]
    simp [totalElapsed, Nat.add_assoc]

open GestureDetector in
/-- No timer holding the event `e` and no call of `onLongPress` with it: kept by every step
other than a mouse-down with `e`. -/
theorem step_keeps_press_absent (e : Nat) (st : GestureState) (ev : GestureEvent)
    (hp : ∀ t ∈ st.pending, t.event ≠ e) (hc : HandlerCall.onLongPress e ∉ st.calls)
    (hev : ev ≠ .mouseDown e) :
    (∀ t ∈ (step st ev).pending, t.event ≠ e)
    ∧ HandlerCall.onLongPress e ∉ (step st ev).calls := by
  cases ev with
  | mouseDown e1 =>
    have he : e1 ≠ e := fun h => hev (by rw [h])
    rcases hl : st.props.onLongPress <;> rcases hd : st.props.onMouseDown <;>
      simp only [step, handleMouseDown, hl, hd, if_true, if_false, Bool.false_eq_true] <;>
      refine ⟨?_, ?_⟩ <;> first
        | exact hp
        | exact hc
        | (intro t ht
           rcases List.mem_append.mp ht with h1 | h1
           · exact hp t h1
           · simp only [List.mem_singleton] at h1
             rw [h1]; exact he)
        | simp [hc]
  | mouseUp e1 =>
    rcases ht : st.timer <;> rcases hu : st.props.onMouseUp <;>
      simp only [step, handleMouseUp, ht, hu, if_true, if_false, Bool.false_eq_true] <;>
      refine ⟨?_, ?_⟩ <;> first
        | exact hp
        | exact hc
        | (intro t h1
           exact hp t (List.mem_filter.mp h1).1)
        | simp [hc]
  | click e1 =>
    rcases h : st.props.onTap <;> simp [step, h, hc] <;> exact hp
  | doubleClick e1 =>
    rcases h : st.props.onDoubleTap <;> simp [step, h, hc] <;> exact hp
  | mouseEnter e1 =>
    rcases h : st.props.onMouseEnter <;> simp [step, h, hc] <;> exact hp
  | mouseLeave e1 =>
    rcases h : st.props.onMouseLeave <;> simp [step, h, hc] <;> exact hp
  | rerender props => exact ⟨hp, hc⟩
  | elapse ms =>
    simp only [step, elapse]
    refine ⟨fun t h1 => hp t (List.mem_filter.mp h1).1, ?_⟩
    intro hmem
    rcases List.mem_append.mp hmem with h1 | h1
    · exact hc h1
    · obtain ⟨t, ht, hte⟩ := List.mem_map.mp h1
      exact hp t (List.mem_filter.mp ht).1 (HandlerCall.onLongPress.inj hte)

open GestureDetector in
theorem run_keeps_press_absent (e : Nat) (events : List GestureEvent) (st : GestureState)
    (hp : ∀ t ∈ st.pending, t.event ≠ e) (hc : HandlerCall.onLongPress e ∉ st.calls)
    (hev : ∀ ev ∈ events, ev ≠ .mouseDown e) :
    HandlerCall.onLongPress e ∉ (run st events).calls := by
  induction events generalizing st with
  | nil => exact hc
  | cons ev rest ih =>
    obtain ⟨h1, h2⟩ := step_keeps_press_absent e st ev hp hc (hev ev (List.mem_cons_self _ _))
    exact ih (step st ev) h1 h2 (fun ev2 h => hev ev2 (List.mem_cons_of_mem _ h))

open GestureDetector in
/-- Between a press and its release, with no other mouse-down, mouse-up or re-render and
before the timer of the press is due: `timer` keeps the handle of the press, the only
timers holding its event are the ones with that handle, and `onLongPress` has not been
called with it. -/
theorem step_between_keeps_press (e id due : Nat) (st : GestureState) (ev : GestureEvent)
    (htimer : st.timer = some id)
    (hp : ∀ t ∈ st.pending, t.event = e → t.id = id ∧ t.due = due)
    (hc : HandlerCall.onLongPress e ∉ st.calls)
    (hev : ev.isMouseDown = false ∧ ev.isMouseUp = false ∧ ev.isRerender = false)
    (htime : st.now + ev.elapsed < due) :
    (step st ev).timer = some id
    ∧ (∀ t ∈ (step st ev).pending, t.event = e → t.id = id ∧ t.due = due)
    ∧ HandlerCall.onLongPress e ∉ (step st ev).calls := by
  cases ev with
  | mouseDown e1 => simp [GestureEvent.isMouseDown] at hev
  | mouseUp e1 => simp [GestureEvent.isMouseUp] at hev
  | rerender props => simp [GestureEvent.isRerender] at hev
  | click e1 =>
    rcases h : st.props.onTap <;> simp [step, h, hc, htimer] <;> exact hp
  | doubleClick e1 =>
    rcases h : st.props.onDoubleTap <;> simp [step, h, hc, htimer] <;> exact hp
  | mouseEnter e1 =>
    rcases h : st.props.onMouseEnter <;> simp [step, h, hc, htimer] <;> exact hp
  | mouseLeave e1 =>
    rcases h : st.props.onMouseLeave <;> simp [step, h, hc, htimer] <;> exact hp
  | elapse ms =>
    simp only [GestureEvent.elapsed] at htime
    simp only [step, elapse]
    refine ⟨htimer, fun t h1 => hp t (List.mem_filter.mp h1).1, ?_⟩
    intro hmem
    rcases List.mem_append.mp hmem with h1 | h1
    · exact hc h1
    · obtain ⟨t, ht, hte⟩ := List.mem_map.mp h1
      obtain ⟨htp, htd⟩ := List.mem_filter.mp ht
      have hdue := (hp t htp (HandlerCall.onLongPress.inj hte)).2
      have hle : t.due ≤ st.now + ms := of_decide_eq_true htd
      omega

open GestureDetector in
theorem run_between_keeps_press (e id due : Nat) (events : List GestureEvent)
    (st : GestureState) (htimer : st.timer = some id)
    (hp : ∀ t ∈ st.pending, t.event = e → t.id = id ∧ t.due = due)
    (hc : HandlerCall.onLongPress e ∉ st.calls)
    (hev : ∀ ev ∈ events,
      ev.isMouseDown = false ∧ ev.isMouseUp = false ∧ ev.isRerender = false)
    (htime : st.now + totalElapsed events < due) :
    (run st events).timer = some id
    ∧ (∀ t ∈ (run st events).pending, t.event = e → t.id = id ∧ t.due = due)
    ∧ HandlerCall.onLongPress e ∉ (run st events).calls := by
  induction events generalizing st with
  | nil => exact ⟨htimer, hp, hc⟩
  | cons ev rest ih =>
    have ht2 : st.now + (ev.elapsed + totalElapsed rest) < due := by
      simpa [totalElapsed] using htime
    obtain ⟨h1, h2, h3⟩ := step_between_keeps_press e id due st ev htimer hp hc
      (hev ev (List.mem_cons_self _ _)) (by omega)
    exact ih (step st ev) h1 h2 h3 (fun ev2 h => hev ev2 (List.mem_cons_of_mem _ h))
      (by rw [step_now]; omega)

open GestureDetector in
/-- While no mouse-up comes, a timer holding the event `e` stays pending until it is due,
and then `onLongPress` has been called with `e`. -/
theorem step_waiting_keeps_or_fires (e due : Nat) (st : GestureState) (ev : GestureEvent)
    (h : HandlerCall.onLongPress e ∈ st.calls
      ∨ (st.now < due ∧ ∃ t ∈ st.pending, t.event = e ∧ t.due = due))
    (hev : ev.isMouseUp = false) :
    HandlerCall.onLongPress e ∈ (step st ev).calls
      ∨ ((step st ev).now < due ∧ ∃ t ∈ (step st ev).pending, t.event = e ∧ t.due = due) := by
  cases ev with
  | mouseUp e1 => simp [GestureEvent.isMouseUp] at hev
  | mouseDown e1 =>
    rcases hl : st.props.onLongPress <;> rcases hd : st.props.onMouseDown <;>
      simp only [step, handleMouseDown, hl, hd, if_true, if_false, Bool.false_eq_true] <;>
      rcases h with h | ⟨hn, t, ht, hte⟩ <;> first
        | exact Or.inl h
        | exact Or.inl (List.mem_append_left _ h)
        | exact Or.inr ⟨hn, t, ht, hte⟩
        | exact Or.inr ⟨hn, t, List.mem_append_left _ ht, hte⟩
  | click e1 =>
    rcases hf : st.props.onTap <;> simp only [step, hf, if_true, if_false, Bool.false_eq_true] <;>
      rcases h with h | h <;> first
        | exact Or.inl h
        | exact Or.inl (List.mem_append_left _ h)
        | exact Or.inr h
  | doubleClick e1 =>
    rcases hf : st.props.onDoubleTap <;>
      simp only [step, hf, if_true, if_false, Bool.false_eq_true] <;>
      rcases h with h | h <;> first
        | exact Or.inl h
        | exact Or.inl (List.mem_append_left _ h)
        | exact Or.inr h
  | mouseEnter e1 =>
    rcases hf : st.props.onMouseEnter <;>
      simp only [step, hf, if_true, if_false, Bool.false_eq_true] <;>
      rcases h with h | h <;> first
        | exact Or.inl h
        | exact Or.inl (List.mem_append_left _ h)
        | exact Or.inr h
  | mouseLeave e1 =>
    rcases hf : st.props.onMouseLeave <;>
      simp only [step, hf, if_true, if_false, Bool.false_eq_true] <;>
      rcases h with h | h <;> first
        | exact Or.inl h
        | exact Or.inl (List.mem_append_left _ h)
        | exact Or.inr h
  | rerender props => exact h
  | elapse ms =>
    simp only [step, elapse]
    rcases h with h | ⟨hn, t, ht, hte, htd⟩
    · exact Or.inl (List.mem_append_left _ h)
    · by_cases hd : due ≤ st.now + ms
      · refine Or.inl (List.mem_append_right _ (List.mem_map.mpr ⟨t, ?_, by rw [hte]⟩))
        exact List.mem_filter.mpr ⟨ht, decide_eq_true (by omega)⟩
      · refine Or.inr ⟨by omega, t, ?_, hte, htd⟩
        refine List.mem_filter.mpr ⟨ht, ?_⟩
        have : ¬ t.due ≤ st.now + ms := by omega
        simp [this]

open GestureDetector in
theorem run_waiting_keeps_or_fires (e due : Nat) (events : List GestureEvent)
    (st : GestureState)
    (h : HandlerCall.onLongPress e ∈ st.calls
      ∨ (st.now < due ∧ ∃ t ∈ st.pending, t.event = e ∧ t.due = due))
    (hev : ∀ ev ∈ events, ev.isMouseUp = false) :
    HandlerCall.onLongPress e ∈ (run st events).calls
      ∨ ((run st events).now < due
        ∧ ∃ t ∈ (run st events).pending, t.event = e ∧ t.due = due) := by
  induction events generalizing st with
  | nil => exact h
  | cons ev rest ih =>
    exact ih (step st ev)
      (step_waiting_keeps_or_fires e due st ev h (hev ev (List.mem_cons_self _ _)))
      (fun ev2 h2 => hev ev2 (List.mem_cons_of_mem _ h2))

open GestureDetector in
theorem mouseDown_sets_timer (s : GestureState) (e : Nat)
    (hprops : s.props.onLongPress = true) :
    (step s (.mouseDown e)).timer = some s.nextTimerId
    ∧ (step s (.mouseDown e)).pending = s.pending ++ [⟨s.nextTimerId, s.now + 500, e⟩]
    ∧ (step s (.mouseDown e)).now = s.now
    ∧ (HandlerCall.onLongPress e ∈ (step s (.mouseDown e)).calls
        → HandlerCall.onLongPress e ∈ s.calls) := by
  rcases hd : s.props.onMouseDown <;> simp [step, handleMouseDown, hprops, hd]

open GestureDetector in
theorem mouseUp_clears_timer (st : GestureState) (e e2 id : Nat)
    (htimer : st.timer = some id) :
    (step st (.mouseUp e2)).pending = st.pending.filter (fun t => t.id != id)
    ∧ (HandlerCall.onLongPress e ∈ (step st (.mouseUp e2)).calls
        → HandlerCall.onLongPress e ∈ st.calls) := by
  rcases hu : st.props.onMouseUp <;> simp [step, handleMouseUp, htimer, hu]

open GestureDetector in
/-- C23, amended: when a mouse-down with `onLongPress` supplied is followed, with no other
mouse-down, no mouse-up and no re-render between them and less than 500 ms passed, by a
mouse-up, that mouse-up clears the timer of the press, and `onLongPress` is never called
with the event of that press, whatever comes later.  The pointer leaving the element changes
neither the pending timers nor `timer`; and as long as no mouse-up comes, `onLongPress` has
been called for the press once 500 ms have passed, also when the pointer left meanwhile. -/
theorem GestureDetector_release_clears_leave_keeps (s : GestureState) (e e2 : Nat)
    (between later waiting : List GestureEvent)
    (hprops : s.props.onLongPress = true)
    (hfresh : ∀ t ∈ s.pending, t.event ≠ e)
    (hcalls : HandlerCall.onLongPress e ∉ s.calls)
    (hbetween : ∀ ev ∈ between,
      ev.isMouseDown = false ∧ ev.isMouseUp = false ∧ ev.isRerender = false)
    (htime : totalElapsed between < 500)
    (hlater : ∀ ev ∈ later, ev ≠ .mouseDown e)
    (hwaiting : ∀ ev ∈ waiting, ev.isMouseUp = false)
    (hdue : 500 ≤ totalElapsed waiting) :
    HandlerCall.onLongPress e
        ∉ (run s ([.mouseDown e] ++ between ++ [.mouseUp e2] ++ later)).calls
    ∧ (∀ st : GestureState,
        (step st (.mouseLeave e2)).pending = st.pending
        ∧ (step st (.mouseLeave e2)).timer = st.timer)
    ∧ HandlerCall.onLongPress e ∈ (run s (.mouseDown e :: waiting)).calls := by
  obtain ⟨hd1, hd2, hd3, hd4⟩ := mouseDown_sets_timer s e hprops
  refine ⟨?_, ?_, ?_⟩
  · have hrun : run s ([.mouseDown e] ++ between ++ [.mouseUp e2] ++ later)
        = run (step (run (step s (.mouseDown e)) between) (.mouseUp e2)) later := by
      simp [run, List.foldl_append]
    rw [hrun]
    obtain ⟨hb1, hb2, hb3⟩ := run_between_keeps_press e s.nextTimerId (s.now + 500) between
      (step s (.mouseDown e)) hd1
      (by
        intro t ht hte
        rw [hd2] at ht
        rcases List.mem_append.mp ht with h1 | h1
        · exact absurd hte (hfresh t h1)
        · simp only [List.mem_singleton] at h1
          rw [h1]; exact ⟨rfl, rfl⟩)
      (fun h => hcalls (hd4 h)) hbetween (by rw [hd3]; omega)
    obtain ⟨hu1, hu2⟩ := mouseUp_clears_timer (run (step s (.mouseDown e)) between) e e2
      s.nextTimerId hb1
    apply run_keeps_press_absent e later _ _ _ hlater
    · intro t ht hte
      rw [hu1] at ht
      obtain ⟨ht1, ht2⟩ := List.mem_filter.mp ht
      have hid := (hb2 t ht1 hte).1
      simp [hid] at ht2
    · exact fun h => hb3 (hu2 h)
  · intro st
    rcases hl : st.props.onMouseLeave <;> simp [step, hl]
  · have hrun : run s (.mouseDown e :: waiting) = run (step s (.mouseDown e)) waiting := by
      simp [run]
    rw [hrun]
    have hq := run_waiting_keeps_or_fires e (s.now + 500) waiting (step s (.mouseDown e))
      (Or.inr ⟨by rw [hd3]; omega, ⟨s.nextTimerId, s.now + 500, e⟩,
        by rw [hd2]; simp, rfl, rfl⟩) hwaiting
    rcases hq with hq | ⟨hn, -⟩
    · exact hq
    · rw [run_now, hd3] at hn
      omega

open GestureDetector in
/-- C23, amended, at a press released after 100 ms with the pointer leaving in between, and
at a press the pointer leaves after 100 ms with no release. -/
theorem GestureDetector_release_clears_leave_keeps_witness :
    HandlerCall.onLongPress 1
        ∉ (run (mount { onLongPress := true })
            [.mouseDown 1, .elapse 100, .mouseLeave 4, .mouseUp 2, .elapse 1000]).calls
    ∧ HandlerCall.onLongPress 1
        ∈ (run (mount { onLongPress := true })
            [.mouseDown 1, .elapse 100, .mouseLeave 2, .elapse 400]).calls :=
  have h := GestureDetector_release_clears_leave_keeps (mount { onLongPress := true }) 1 2
    [.elapse 100, .mouseLeave 4] [.elapse 1000] [.elapse 100, .mouseLeave 2, .elapse 400]
    rfl (by decide) (by decide) (by decide) (by decide) (by decide) (by decide) (by decide)
  ⟨h.1, h.2.2⟩

open GestureDetector in
/-- C24: after two presses with no release between them two timers are pending; after a
press and a re-render the variable `timer` of the new render is `null`, the mouse-up clears
nothing, the timer of the press stays pending and at 500 ms `onLongPress` is called. -/
theorem GestureDetector_timer_lost_on_rerender :
    (run (mount { onLongPress := true }) [.mouseDown 1, .mouseDown 2]).pending
      = [⟨1, 500, 1⟩, ⟨2, 500, 2⟩]
    ∧ (run (mount { onLongPress := true })
        [.mouseDown 1, .rerender { onLongPress := true }]).timer = none
    ∧ (run (mount { onLongPress := true })
        [.mouseDown 1, .rerender { onLongPress := true }, .mouseUp 2]).pending
      = [⟨1, 500, 1⟩]
    ∧ (run (mount { onLongPress := true })
        [.mouseDown 1, .rerender { onLongPress := true }, .mouseUp 2, .elapse 500]).calls
      = [.onLongPress 1] := by
  decide

end PanaraUI
